import Mathlib

/-!
Verification development for the harmony C-bindings repository.

The repository under verification contains the C-ABI wrapper `src/cs_module.rs`
around the harmony conversation-rendering / token-parsing engine.  The wrapper
layer (null checks, thread-local last-error slot, JSON argument marshalling) is
embedded here directly from the Rust source.  The engine itself (chat grammar,
conversation renderer, streaming parser) is not part of the repository's
source tree; those definitions are modelled from the specification, as marked
in their doc comments.
-/

namespace Harmony

/-- Modelled from the spec: Role is the closed enumeration
{system, developer, user, assistant, tool} of the core chat model
(the `Role` enum of the harmony crate is not under `src/`). -/
inductive Role where
  | system
  | developer
  | user
  | assistant
  | tool
deriving DecidableEq

/-- Modelled from the spec: `Role::try_from` on strings; unknown role strings
fail to parse (the conversion itself lives in the harmony crate, not under
`src/`; the spec fixes the five role names). -/
def roleFromString : String → Option Role
  | "system" => some Role.system
  | "developer" => some Role.developer
  | "user" => some Role.user
  | "assistant" => some Role.assistant
  | "tool" => some Role.tool
  | _ => none

/-- Modelled from the spec: ContentType is a variant over plain text and a
structured tool-call payload. -/
inductive CType where
  | text
  | toolPayload
deriving DecidableEq

/-- UTF-8 encoding of a unicode code point, used to move between the string
world of the FFI layer and the byte world of the token vocabulary. -/
def charUtf8 (n : Nat) : List Nat :=
  if n < 0x80 then [n]
  else if n < 0x800 then [0xC0 + n / 64, 0x80 + n % 64]
  else if n < 0x10000 then
    [0xE0 + n / 4096, 0x80 + (n / 64) % 64, 0x80 + n % 64]
  else
    [0xF0 + n / 262144, 0x80 + (n / 4096) % 64, 0x80 + (n / 64) % 64, 0x80 + n % 64]

/-- Byte sequence of a string (UTF-8). -/
def strBytes (s : String) : List Nat :=
  s.data.foldr (fun c acc => charUtf8 c.toNat ++ acc) []

/-- Modelled from the spec: one typed content part of a message; content is
kept at the byte level, matching the byte-oriented token vocabulary. -/
structure CPart where
  ty : CType
  data : List Nat
deriving DecidableEq

/-- Modelled from the spec: a Message is role, optional recipient, optional
channel and an ordered sequence of content parts. -/
structure Message where
  role : Role
  recipient : Option (List Nat)
  channel : Option (List Nat)
  content : List CPart
deriving DecidableEq

/-- Modelled from the spec: a Conversation is an ordered sequence of
Messages. -/
structure Conversation where
  messages : List Message
deriving DecidableEq

/-- Modelled from the spec: the recognized render-configuration switch
`auto_drop_analysis` (remove prior assistant "analysis"-channel messages not
from the final turn before rendering). -/
structure RenderConversationConfig where
  auto_drop_analysis : Bool
deriving DecidableEq

/-- Modelled from the spec: per-message render switches (whether to include
the trailing end-of-message token). -/
structure RenderOptions where
  include_end_of_message : Bool
deriving DecidableEq

/-- Modelled from the spec: the token vocabulary.  Structural tokens delimit
the grammar fields; `text` tokens carry the byte payload produced by the
external byte-pair tokenizer (whose merge structure is out of scope: only the
bytes a token decodes to matter for the protocol layer). -/
inductive Tok where
  | start
  | endMsg
  | role (r : Role)
  | recipientMarker
  | channelMarker
  | ctype (ty : CType)
  | contentSep
  | text (bs : List Nat)
deriving DecidableEq

/-- A token is special (structural) exactly when it is not a text token. -/
def isSpecialTok : Tok → Bool
  | Tok.text _ => false
  | _ => true

/-- Bytes a token decodes to. -/
def tokBytes : Tok → List Nat
  | Tok.text bs => bs
  | _ => []

/-- Byte sequence of the string "analysis", the channel tag recognized by
`auto_drop_analysis`. -/
def analysisBytes : List Nat := strBytes "analysis"

/-! ## Incremental UTF-8 decoding

Modelled from the spec: content bytes are flushed to the decoded
representation only up to the last confirmed complete character; the
undecoded tail remains buffered until a future token completes it. -/

/-- Is a byte a UTF-8 continuation byte (0x80-0xBF)? -/
def contByte (b : Nat) : Bool := 0x80 ≤ b && b < 0xC0

/-- Expected length of a UTF-8 sequence from its lead byte (0 when the byte
cannot lead a sequence). -/
def utf8Len (b : Nat) : Nat :=
  if b < 0x80 then 1
  else if b < 0xC0 then 0
  else if b < 0xE0 then 2
  else if b < 0xF0 then 3
  else if b < 0xF8 then 4
  else 0

/-- Try to split one complete UTF-8 character off the front of a byte buffer.
Returns `none` when the buffer is empty, starts with an invalid lead byte, or
holds only an incomplete character. -/
def takeChar (bs : List Nat) : Option (List Nat × List Nat) :=
  match bs with
  | [] => none
  | b :: rest =>
    let n := utf8Len b
    if n = 0 then none
    else if rest.length + 1 < n then none
    else
      let cont := rest.take (n - 1)
      if cont.all contByte then some (b :: cont, rest.drop (n - 1)) else none

/-- Fueled worker for `utf8Flush`. -/
def utf8FlushAux : Nat → List Nat → List Nat × List Nat
  | 0, bs => ([], bs)
  | fuel + 1, bs =>
    match takeChar bs with
    | none => ([], bs)
    | some cr =>
      let rec' := utf8FlushAux fuel cr.2
      (cr.1 ++ rec'.1, rec'.2)

/-- Split a byte buffer into its maximal decodable prefix (complete UTF-8
characters) and the buffered undecoded tail. -/
def utf8Flush (bs : List Nat) : List Nat × List Nat := utf8FlushAux bs.length bs

/-- Fueled worker for `validUtf8`. -/
def validUtf8Aux : Nat → List Nat → Bool
  | _, [] => true
  | 0, _ :: _ => false
  | fuel + 1, bs =>
    match takeChar bs with
    | none => false
    | some cr => validUtf8Aux fuel cr.2

/-- Is a byte sequence entirely made of complete UTF-8 characters? -/
def validUtf8 (bs : List Nat) : Bool := validUtf8Aux bs.length bs

/-- Is a byte sequence the encoding of exactly one UTF-8 character? -/
def isUtf8Char (bs : List Nat) : Bool :=
  match bs with
  | [] => false
  | b :: rest => (utf8Len b == rest.length + 1) && rest.all contByte

/-! ## Streaming parser

Modelled from the spec: a resumable state machine consuming tokens one at a
time, with states ExpectHeader (split here into the start-token and
role-token positions) → CollectingRecipient → CollectingChannel →
CollectingContent → (MessageComplete, folded into the transition back to the
header position) plus a terminal Finished state. -/

inductive PState where
  | expectStart
  | expectRole
  | afterRole (r : Role)
  | collectRecipient (r : Role) (buf : List Nat)
  | collectChannel (r : Role) (recip : Option (List Nat)) (buf : List Nat)
  | expectPartType (r : Role) (recip : Option (List Nat)) (chan : Option (List Nat))
      (acc : List CPart)
  | collectContent (r : Role) (recip : Option (List Nat)) (chan : Option (List Nat))
      (acc : List CPart) (ty : CType) (flushed pending : List Nat)
  | finished
deriving DecidableEq

/-- Modelled from the spec: parse-time error kinds (malformed or out-of-order
structural tokens; a content-type marker with no following content). -/
inductive HError where
  | unexpectedToken
  | emptyContent
  | invalidUtf8Bytes
deriving DecidableEq

/-- Diagnostic message of an error, as surfaced through `e.to_string()` at the
FFI boundary. -/
def errToString : HError → String
  | HError.unexpectedToken => "unexpected token"
  | HError.emptyContent => "content-type marker with no following content"
  | HError.invalidUtf8Bytes => "invalid utf-8"

/-- Modelled from the spec: the live state of one streaming-parser instance:
current state-machine state, completed messages, raw token history, and the
content delta produced by the most recent `process` call. -/
structure ParserCore where
  state : PState
  messages : List Message
  tokens : List Tok
  lastDelta : Option (List Nat)
deriving DecidableEq

/-- Modelled from the spec: feed one token to the streaming parser.  A
structural marker closes the current field and advances the state; text-token
bytes append to the pending buffer and are flushed up to the last complete
UTF-8 character.  A token that the grammar does not allow in the current
state is an error, and the state is not advanced past the bad token. -/
def ParserCore.process (p : ParserCore) (t : Tok) : Except HError ParserCore :=
  let ph : ParserCore :=
    { p with tokens := p.tokens ++ [t], lastDelta := none }
  match p.state, t with
  | PState.expectStart, Tok.start => Except.ok { ph with state := PState.expectRole }
  | PState.expectStart, _ => Except.error HError.unexpectedToken
  | PState.expectRole, Tok.role r => Except.ok { ph with state := PState.afterRole r }
  | PState.expectRole, _ => Except.error HError.unexpectedToken
  | PState.afterRole r, Tok.recipientMarker =>
      Except.ok { ph with state := PState.collectRecipient r [] }
  | PState.afterRole r, Tok.channelMarker =>
      Except.ok { ph with state := PState.collectChannel r none [] }
  | PState.afterRole r, Tok.ctype ty =>
      Except.ok { ph with state := PState.collectContent r none none [] ty [] [] }
  | PState.afterRole _, _ => Except.error HError.unexpectedToken
  | PState.collectRecipient r buf, Tok.text bs =>
      Except.ok { ph with state := PState.collectRecipient r (buf ++ bs) }
  | PState.collectRecipient r buf, Tok.channelMarker =>
      Except.ok { ph with state := PState.collectChannel r (some buf) [] }
  | PState.collectRecipient r buf, Tok.ctype ty =>
      Except.ok { ph with state := PState.collectContent r (some buf) none [] ty [] [] }
  | PState.collectRecipient _ _, _ => Except.error HError.unexpectedToken
  | PState.collectChannel r rc buf, Tok.text bs =>
      Except.ok { ph with state := PState.collectChannel r rc (buf ++ bs) }
  | PState.collectChannel r rc buf, Tok.ctype ty =>
      Except.ok { ph with state := PState.collectContent r rc (some buf) [] ty [] [] }
  | PState.collectChannel _ _ _, _ => Except.error HError.unexpectedToken
  | PState.expectPartType r rc ch acc, Tok.ctype ty =>
      Except.ok { ph with state := PState.collectContent r rc ch acc ty [] [] }
  | PState.expectPartType _ _ _ _, _ => Except.error HError.unexpectedToken
  | PState.collectContent r rc ch acc ty f pnd, Tok.text bs =>
      let res := utf8Flush (pnd ++ bs)
      Except.ok { ph with
        state := PState.collectContent r rc ch acc ty (f ++ res.1) res.2,
        lastDelta := if res.1 = [] then none else some res.1 }
  | PState.collectContent r rc ch acc ty f pnd, Tok.contentSep =>
      if f ++ pnd = [] then Except.error HError.emptyContent
      else Except.ok { ph with
        state := PState.expectPartType r rc ch (acc ++ [CPart.mk ty (f ++ pnd)]) }
  | PState.collectContent r rc ch acc ty f pnd, Tok.endMsg =>
      if f ++ pnd = [] then Except.error HError.emptyContent
      else Except.ok { ph with
        state := PState.expectStart,
        messages := p.messages ++ [Message.mk r rc ch (acc ++ [CPart.mk ty (f ++ pnd)])] }
  | PState.collectContent _ _ _ _ _ _ _, _ => Except.error HError.unexpectedToken
  | PState.finished, _ => Except.error HError.unexpectedToken

/-- Modelled from the spec: on end of stream, a message mid-construction is
finalized using whatever content has accumulated (best-effort close, not an
error). -/
def finalizeMsg (p : ParserCore) : ParserCore :=
  match p.state with
  | PState.afterRole r =>
      { p with messages := p.messages ++ [Message.mk r none none []] }
  | PState.collectRecipient r buf =>
      { p with messages := p.messages ++ [Message.mk r (some buf) none []] }
  | PState.collectChannel r rc buf =>
      { p with messages := p.messages ++ [Message.mk r rc (some buf) []] }
  | PState.expectPartType r rc ch acc =>
      { p with messages := p.messages ++ [Message.mk r rc ch acc] }
  | PState.collectContent r rc ch acc ty f pnd =>
      { p with messages := p.messages ++ [Message.mk r rc ch (acc ++ [CPart.mk ty (f ++ pnd)])] }
  | _ => p

/-- Modelled from the spec: `process_eos` finalizes any mid-construction
message and moves the parser to the terminal Finished state. -/
def ParserCore.processEos (p : ParserCore) : ParserCore :=
  { finalizeMsg p with state := PState.finished }

/-- Initial parser state; a supplied default role positions the parser right
after that role's header, otherwise a full message header is expected. -/
def initCore (role : Option Role) : ParserCore :=
  { state := match role with
             | some r => PState.afterRole r
             | none => PState.expectStart,
    messages := [], tokens := [], lastDelta := none }

/-- Modelled from the spec: constructing a streaming parser
(`StreamableParser::new`); construction itself does not fail in the model. -/
def streamableParserNew (role : Option Role) : Except HError ParserCore :=
  Except.ok (initCore role)

/-- Feed a token list, propagating the first error. -/
def processAllE (p : ParserCore) : List Tok → Except HError ParserCore
  | [] => Except.ok p
  | t :: ts =>
    match p.process t with
    | Except.ok q => processAllE q ts
    | Except.error e => Except.error e

/-- Feed a token list one call at a time the way an external driver would,
leaving the state untouched on an erroring token and continuing. -/
def streamFeed (p : ParserCore) : List Tok → ParserCore
  | [] => p
  | t :: ts =>
    match p.process t with
    | Except.ok q => streamFeed q ts
    | Except.error _ => streamFeed p ts

/-- Modelled from the spec: the one-shot batch parser constructs a fresh
streaming parser, feeds all tokens, signals end of stream and returns the
completed messages. -/
def parseMessagesFromCompletionTokens (tokens : List Tok) (role : Option Role) :
    Except HError (List Message) :=
  match processAllE (initCore role) tokens with
  | Except.ok p => Except.ok p.processEos.messages
  | Except.error e => Except.error e

/-! ## Conversation renderer (modelled from the spec) -/

/-- Tokenization of free text: the external tokenizer's `encode` with an
empty allowed-special set; the byte payload of the produced tokens is the
UTF-8 byte sequence of the text. -/
def encodeText (bs : List Nat) : List Tok :=
  if bs = [] then [] else [Tok.text bs]

/-- Token sequence of the content parts after the first one: each further
part is preceded by the content separator. -/
def renderPartsRest : List CPart → List Tok
  | [] => []
  | q :: ps => Tok.contentSep :: Tok.ctype q.ty :: (encodeText q.data ++ renderPartsRest ps)

/-- Token sequence of a message's content parts. -/
def renderParts : List CPart → List Tok
  | [] => []
  | q :: ps => Tok.ctype q.ty :: (encodeText q.data ++ renderPartsRest ps)

/-- Modelled from the spec: the canonical token sequence of one Message:
start, role, optional recipient, optional channel, content parts separated by
the content separator, end of message. -/
def renderMessage (m : Message) : List Tok :=
  [Tok.start, Tok.role m.role]
    ++ (match m.recipient with
        | none => []
        | some rb => Tok.recipientMarker :: encodeText rb)
    ++ (match m.channel with
        | none => []
        | some cb => Tok.channelMarker :: encodeText cb)
    ++ renderParts m.content
    ++ [Tok.endMsg]

/-- Concatenated rendering of a message list. -/
def renderMsgs : List Message → List Tok
  | [] => []
  | m :: l => renderMessage m ++ renderMsgs l

/-- Is a message dropped by `auto_drop_analysis` (assistant message on the
"analysis" channel)? -/
def isDroppedAnalysis (m : Message) : Bool :=
  m.role == Role.assistant && m.channel == some analysisBytes

/-- Drop assistant "analysis"-channel messages that are not the final
message of the conversation. -/
def dropNonFinalAnalysis : List Message → List Message
  | [] => []
  | [m] => [m]
  | m :: l =>
    (if isDroppedAnalysis m then [] else [m]) ++ dropNonFinalAnalysis l

/-- Modelled from the spec: the pre-pass filter a render configuration applies
to the conversation.  The default configuration enables
`auto_drop_analysis` (the spec leaves the default unnamed; no theorem below
depends on this choice). -/
def applyConfig (cfg : Option RenderConversationConfig) (msgs : List Message) :
    List Message :=
  if (cfg.getD (RenderConversationConfig.mk true)).auto_drop_analysis then
    dropNonFinalAnalysis msgs
  else msgs

/-- Modelled from the spec: `render_conversation` renders all messages as-is
with no header appended. -/
def renderedConversation (c : Conversation) (cfg : Option RenderConversationConfig) :
    List Tok :=
  renderMsgs (applyConfig cfg c.messages)

/-- Modelled from the spec: `render_conversation_for_training` renders all
messages fully, including the final end-of-message token. -/
def renderedTraining (c : Conversation) (cfg : Option RenderConversationConfig) :
    List Tok :=
  renderMsgs (applyConfig cfg c.messages)

/-- Modelled from the spec: `render_conversation_for_completion` renders all
messages and appends the header tokens prompting the next turn (no content,
no end-of-message token). -/
def renderedCompletion (c : Conversation) (nextRole : Role)
    (cfg : Option RenderConversationConfig) : List Tok :=
  renderMsgs (applyConfig cfg c.messages) ++ [Tok.start, Tok.role nextRole]

/-- Modelled from the spec: `render` of a single Message, with the
per-message switch controlling the trailing end-of-message token. -/
def renderedSingle (m : Message) (opts : Option RenderOptions) : List Tok :=
  if (opts.getD (RenderOptions.mk true)).include_end_of_message then renderMessage m
  else (renderMessage m).dropLast

/-- Modelled from the spec: generic end-of-turn stop tokens. -/
def stopTokensModel : List Tok := [Tok.endMsg]

/-- Modelled from the spec: stop tokens relevant while the assistant may be
invoking a tool. -/
def stopTokensForAssistantActionsModel : List Tok := [Tok.endMsg]

/-- Modelled from the spec: decoding a token list to bytes via the external
tokenizer. -/
def decodeBytesModel (ts : List Tok) : Except HError (List Nat) :=
  Except.ok ((ts.map tokBytes).flatten)

/-- Modelled from the spec: decoding a token list to text; fails when the
bytes are not valid UTF-8. -/
def decodeUtf8Model (ts : List Tok) : Except HError (List Nat) :=
  let bs := (ts.map tokBytes).flatten
  if validUtf8 bs then Except.ok bs else Except.error HError.invalidUtf8Bytes

/-! ## C-ABI wrapper layer (embedded from `src/cs_module.rs`)

Pointers are embedded as `Option` values (`none` is the null pointer), the
thread-local `LAST_ERROR` slot as an explicit state argument and result, a
C-string input as a three-way value (null pointer, non-UTF-8 bytes, or a
string), and a JSON C-string input as a four-way value that also records
whether serde deserialization succeeds.  Which concrete byte strings
deserialize to which values is serde's concern (outside this repository);
the wrapper's control flow only branches on the outcome, which is what the
embedding keeps. -/

/-- The thread-local last-error slot (`LAST_ERROR`). -/
abbrev ErrSlot := Option String

/-- A `*const c_char` argument as `opt_cstr_to_opt_string` classifies it:
null pointer, non-UTF-8 bytes, or a Rust string. -/
inductive CStrArg where
  | null
  | invalidUtf8
  | str (s : String)
deriving DecidableEq

/-- A `*const c_char` argument that the wrapper feeds to
`serde_json::from_str::<α>`: null, non-UTF-8, a string serde rejects (with
serde's error message), or a string that deserializes to `a`. -/
inductive CArg (α : Type) where
  | null
  | invalidUtf8
  | parseFail (e : String)
  | jsonOk (a : α)
deriving DecidableEq

/-- `opt_cstr_to_opt_string` returns `None` exactly for a null pointer or
non-UTF-8 bytes. -/
def CStrArg.isNullOrInvalid : CStrArg → Bool
  | CStrArg.null => true
  | CStrArg.invalidUtf8 => true
  | CStrArg.str _ => false

/-- The string carried by a readable `CStrArg` (unreached on null/invalid
arguments, which every caller filters out first). -/
def CStrArg.get : CStrArg → String
  | CStrArg.str s => s
  | _ => ""

/-- `opt_cstr_to_opt_string` on a JSON argument. -/
def CArg.isNullOrInvalid {α : Type} : CArg α → Bool
  | CArg.null => true
  | CArg.invalidUtf8 => true
  | _ => false

/-- `serde_json::from_str` on a readable JSON argument. -/
def CArg.parse {α : Type} : CArg α → Except String α
  | CArg.jsonOk a => Except.ok a
  | CArg.parseFail e => Except.error e
  | _ => Except.error "null"

/-- Does a string contain an interior NUL byte (the failure case of
`CString::new`)? -/
def containsNulByte (s : String) : Bool := s.data.any (fun c => c.toNat = 0)

/-- `set_last_error`: store the message in the thread-local slot, falling
back to "unknown error" when the message cannot be a C string. -/
def set_last_error (e : String) (_st : ErrSlot) : ErrSlot :=
  some (if containsNulByte e then "unknown error" else e)

/-- `harmony_get_last_error`: a copy of the stored message, or null when no
error has been recorded.  The slot itself is not cleared. -/
def harmony_get_last_error (st : ErrSlot) : Option String × ErrSlot := (st, st)

/-- `harmony_free_string`: no-op on null; deallocation has no further
observable effect in the model. -/
def harmony_free_string (_s : Option String) (st : ErrSlot) : ErrSlot := st

/-- The `HarmonyEncoding` handle target; the vocabulary itself is fixed in
the model, so the handle only carries the encoding name. -/
structure HarmonyEncoding where
  name : String
deriving DecidableEq

/-- Modelled from the spec: `HarmonyEncodingName` parsing plus
`load_harmony_encoding` (both in the harmony crate, not under `src/`); the
spec does not enumerate the encoding names, so the model recognizes a single
vocabulary. -/
def load_harmony_encoding (s : String) : Except String HarmonyEncoding :=
  if s = "HarmonyGptOss" then Except.ok (HarmonyEncoding.mk s)
  else Except.error ("invalid encoding name: " ++ s)

/-- `harmony_encoding_new`. -/
def harmony_encoding_new (name : CStrArg) (st : ErrSlot) :
    Option HarmonyEncoding × ErrSlot :=
  match name with
  | CStrArg.null => (none, set_last_error "name is null or invalid" st)
  | CStrArg.invalidUtf8 => (none, set_last_error "name is null or invalid" st)
  | CStrArg.str s =>
    match load_harmony_encoding s with
    | Except.ok enc => (some enc, st)
    | Except.error e => (none, set_last_error e st)

/-- `harmony_encoding_free`: no-op on null; dropping the box has no further
observable effect in the model. -/
def harmony_encoding_free (_handle : Option HarmonyEncoding) (st : ErrSlot) :
    ErrSlot := st

/-- `harmony_encoding_name`. -/
def harmony_encoding_name (handle : Option HarmonyEncoding) (st : ErrSlot) :
    Option String × ErrSlot :=
  match handle with
  | none => (none, set_last_error "null handle" st)
  | some enc => (some enc.name, st)

/-- `parse_render_config`: deserialization failures are discarded with
`.ok()`, collapsing to no config. -/
def parse_render_config (config_json : CArg RenderConversationConfig) :
    Option RenderConversationConfig :=
  match config_json with
  | CArg.jsonOk c => some c
  | _ => none

/-- Core `render_conversation_for_completion` as called by the wrapper
(modelled from the spec; total on a known role in the model). -/
def render_conversation_for_completion_core (c : Conversation) (r : Role)
    (cfg : Option RenderConversationConfig) : Except HError (List Tok) :=
  Except.ok (renderedCompletion c r cfg)

/-- Core `render_conversation` as called by the wrapper (modelled from the
spec). -/
def render_conversation_core (c : Conversation)
    (cfg : Option RenderConversationConfig) : Except HError (List Tok) :=
  Except.ok (renderedConversation c cfg)

/-- Core `render_conversation_for_training` as called by the wrapper
(modelled from the spec). -/
def render_conversation_for_training_core (c : Conversation)
    (cfg : Option RenderConversationConfig) : Except HError (List Tok) :=
  Except.ok (renderedTraining c cfg)

/-- Core single-message `render` as called by the wrapper (modelled from the
spec). -/
def render_core (m : Message) (opts : Option RenderOptions) :
    Except HError (List Tok) :=
  Except.ok (renderedSingle m opts)

/-- `harmony_render_conversation_for_completion`. -/
def harmony_render_conversation_for_completion
    (handle : Option HarmonyEncoding) (conversation_json : CArg Conversation)
    (next_turn_role : CStrArg) (config_json : CArg RenderConversationConfig)
    (st : ErrSlot) : Option (List Tok) × ErrSlot :=
  match handle with
  | none => (none, set_last_error "null handle" st)
  | some _enc =>
    if conversation_json.isNullOrInvalid || next_turn_role.isNullOrInvalid then
      (none, set_last_error "conversation_json or next_turn_role is null/invalid" st)
    else
      match conversation_json.parse with
      | Except.error e => (none, set_last_error ("invalid conversation JSON: " ++ e) st)
      | Except.ok conv =>
        match roleFromString next_turn_role.get with
        | none => (none, set_last_error "unknown role" st)
        | some role =>
          match render_conversation_for_completion_core conv role
              (parse_render_config config_json) with
          | Except.ok tokens => (some tokens, st)
          | Except.error e => (none, set_last_error (errToString e) st)

/-- `harmony_render_conversation`. -/
def harmony_render_conversation
    (handle : Option HarmonyEncoding) (conversation_json : CArg Conversation)
    (config_json : CArg RenderConversationConfig) (st : ErrSlot) :
    Option (List Tok) × ErrSlot :=
  match handle with
  | none => (none, set_last_error "null handle" st)
  | some _enc =>
    if conversation_json.isNullOrInvalid then
      (none, set_last_error "conversation_json is null/invalid" st)
    else
      match conversation_json.parse with
      | Except.error e => (none, set_last_error ("invalid conversation JSON: " ++ e) st)
      | Except.ok conv =>
        match render_conversation_core conv (parse_render_config config_json) with
        | Except.ok tokens => (some tokens, st)
        | Except.error e => (none, set_last_error (errToString e) st)

/-- `harmony_render_conversation_for_training`. -/
def harmony_render_conversation_for_training
    (handle : Option HarmonyEncoding) (conversation_json : CArg Conversation)
    (config_json : CArg RenderConversationConfig) (st : ErrSlot) :
    Option (List Tok) × ErrSlot :=
  match handle with
  | none => (none, set_last_error "null handle" st)
  | some _enc =>
    if conversation_json.isNullOrInvalid then
      (none, set_last_error "conversation_json is null/invalid" st)
    else
      match conversation_json.parse with
      | Except.error e => (none, set_last_error ("invalid conversation JSON: " ++ e) st)
      | Except.ok conv =>
        match render_conversation_for_training_core conv
            (parse_render_config config_json) with
        | Except.ok tokens => (some tokens, st)
        | Except.error e => (none, set_last_error (errToString e) st)

/-- `harmony_render`. -/
def harmony_render
    (handle : Option HarmonyEncoding) (message_json : CArg Message)
    (render_options_json : CArg RenderOptions) (st : ErrSlot) :
    Option (List Tok) × ErrSlot :=
  match handle with
  | none => (none, set_last_error "null handle" st)
  | some _enc =>
    if message_json.isNullOrInvalid then
      (none, set_last_error "message_json is null/invalid" st)
    else
      match message_json.parse with
      | Except.error e => (none, set_last_error ("invalid message JSON: " ++ e) st)
      | Except.ok msg =>
        let opts := match render_options_json with
                    | CArg.jsonOk o => some o
                    | _ => none
        match render_core msg opts with
        | Except.ok tokens => (some tokens, st)
        | Except.error e => (none, set_last_error (errToString e) st)

/-- The lenient role conversion used by `harmony_parse_messages_from_completion_tokens`
and `harmony_streamable_parser_new`: `.map(Role::try_from).transpose().map_err(|_| ()).ok().flatten()`
sends a null pointer, non-UTF-8 bytes and an unknown role name all to `None`. -/
def roleParsedLenient (role : CStrArg) : Option Role :=
  match role with
  | CStrArg.str s => roleFromString s
  | _ => none

/-- `harmony_parse_messages_from_completion_tokens`. -/
def harmony_parse_messages_from_completion_tokens
    (handle : Option HarmonyEncoding) (tokens_json : CArg (List Tok))
    (role : CStrArg) (st : ErrSlot) : Option (List Message) × ErrSlot :=
  match handle with
  | none => (none, set_last_error "null handle" st)
  | some _enc =>
    if tokens_json.isNullOrInvalid then
      (none, set_last_error "tokens_json is null/invalid" st)
    else
      match tokens_json.parse with
      | Except.error e => (none, set_last_error ("invalid tokens JSON: " ++ e) st)
      | Except.ok tokens =>
        match parseMessagesFromCompletionTokens tokens (roleParsedLenient role) with
        | Except.ok msgs => (some msgs, st)
        | Except.error e => (none, set_last_error (errToString e) st)

/-- `harmony_decode_utf8`. -/
def harmony_decode_utf8
    (handle : Option HarmonyEncoding) (tokens_json : CArg (List Tok))
    (st : ErrSlot) : Option (List Nat) × ErrSlot :=
  match handle with
  | none => (none, set_last_error "null handle" st)
  | some _enc =>
    if tokens_json.isNullOrInvalid then
      (none, set_last_error "tokens_json is null/invalid" st)
    else
      match tokens_json.parse with
      | Except.error e => (none, set_last_error ("invalid tokens JSON: " ++ e) st)
      | Except.ok tokens =>
        match decodeUtf8Model tokens with
        | Except.ok s => (some s, st)
        | Except.error e => (none, set_last_error (errToString e) st)

/-- `harmony_decode_bytes` (the base64 marshalling of the byte result is kept
as the bytes themselves). -/
def harmony_decode_bytes
    (handle : Option HarmonyEncoding) (tokens_json : CArg (List Tok))
    (st : ErrSlot) : Option (List Nat) × ErrSlot :=
  match handle with
  | none => (none, set_last_error "null handle" st)
  | some _enc =>
    if tokens_json.isNullOrInvalid then
      (none, set_last_error "tokens_json is null/invalid" st)
    else
      match tokens_json.parse with
      | Except.error e => (none, set_last_error ("invalid tokens JSON: " ++ e) st)
      | Except.ok tokens =>
        match decodeBytesModel tokens with
        | Except.ok bs => (some bs, st)
        | Except.error e => (none, set_last_error (errToString e) st)

/-- `harmony_encode`: a null or non-UTF-8 `text` falls back to the empty
string via `unwrap_or_default`, and an unreadable or rejected
`allowed_special_json` falls back to the empty set. -/
def harmony_encode
    (handle : Option HarmonyEncoding) (text : CStrArg)
    (_allowed_special_json : CArg (List String)) (st : ErrSlot) :
    Option (List Tok) × ErrSlot :=
  match handle with
  | none => (none, set_last_error "null handle" st)
  | some _enc =>
    let text_str := if text.isNullOrInvalid then "" else text.get
    (some (encodeText (strBytes text_str)), st)

/-- `harmony_special_tokens` (the marshalled list of special-token names is
kept as the structural tokens themselves). -/
def harmony_special_tokens (handle : Option HarmonyEncoding) (st : ErrSlot) :
    Option (List Tok) × ErrSlot :=
  match handle with
  | none => (none, set_last_error "null handle" st)
  | some _enc =>
    (some [Tok.start, Tok.endMsg, Tok.recipientMarker, Tok.channelMarker,
           Tok.contentSep], st)

/-- `harmony_is_special_token`. -/
def harmony_is_special_token (handle : Option HarmonyEncoding) (token : Tok)
    (st : ErrSlot) : Int × ErrSlot :=
  match handle with
  | none => (-1, set_last_error "null handle" st)
  | some _enc => (if isSpecialTok token then 1 else 0, st)

/-- `harmony_stop_tokens`. -/
def harmony_stop_tokens (handle : Option HarmonyEncoding) (st : ErrSlot) :
    Option (List Tok) × ErrSlot :=
  match handle with
  | none => (none, set_last_error "null handle" st)
  | some _enc => (some stopTokensModel, st)

/-- `harmony_stop_tokens_for_assistant_actions`. -/
def harmony_stop_tokens_for_assistant_actions (handle : Option HarmonyEncoding)
    (st : ErrSlot) : Option (List Tok) × ErrSlot :=
  match handle with
  | none => (none, set_last_error "null handle" st)
  | some _enc => (some stopTokensForAssistantActionsModel, st)

/-- `harmony_streamable_parser_new`; note the distinct null-check message
"null encoding handle". -/
def harmony_streamable_parser_new (encoding_handle : Option HarmonyEncoding)
    (role : CStrArg) (st : ErrSlot) : Option ParserCore × ErrSlot :=
  match encoding_handle with
  | none => (none, set_last_error "null encoding handle" st)
  | some _enc =>
    match streamableParserNew (roleParsedLenient role) with
    | Except.ok p => (some p, st)
    | Except.error e => (none, set_last_error (errToString e) st)

/-- `harmony_streamable_parser_free`: no-op on null. -/
def harmony_streamable_parser_free (_handle : Option ParserCore) (st : ErrSlot) :
    ErrSlot := st

/-- `harmony_streamable_parser_process`: mutates the parser behind the
handle, so the (unchanged-on-error) parser is part of the result. -/
def harmony_streamable_parser_process (handle : Option ParserCore) (token : Tok)
    (st : ErrSlot) : Int × ErrSlot × Option ParserCore :=
  match handle with
  | none => (-1, set_last_error "null handle" st, none)
  | some p =>
    match p.process token with
    | Except.ok q => (0, st, some q)
    | Except.error e => (-1, set_last_error (errToString e) st, some p)

/-- `harmony_streamable_parser_process_eos`. -/
def harmony_streamable_parser_process_eos (handle : Option ParserCore)
    (st : ErrSlot) : Int × ErrSlot × Option ParserCore :=
  match handle with
  | none => (-1, set_last_error "null handle" st, none)
  | some p => (0, st, some p.processEos)

/-- Decoded content of the in-progress message (previous parts plus the
flushed bytes of the open part; the undecoded pending tail is excluded). -/
def currentContentCore (p : ParserCore) : Except HError (List Nat) :=
  match p.state with
  | PState.collectContent _ _ _ acc _ f _ =>
      Except.ok ((acc.map CPart.data).flatten ++ f)
  | _ => Except.ok []

/-- `harmony_streamable_parser_current_content`. -/
def harmony_streamable_parser_current_content (handle : Option ParserCore)
    (st : ErrSlot) : Option (List Nat) × ErrSlot :=
  match handle with
  | none => (none, set_last_error "null handle" st)
  | some p =>
    match currentContentCore p with
    | Except.ok s => (some s, st)
    | Except.error e => (none, set_last_error (errToString e) st)

/-- Role of the in-progress message, when one is known. -/
def currentRoleCore (p : ParserCore) : Option Role :=
  match p.state with
  | PState.afterRole r => some r
  | PState.collectRecipient r _ => some r
  | PState.collectChannel r _ _ => some r
  | PState.expectPartType r _ _ _ => some r
  | PState.collectContent r _ _ _ _ _ _ => some r
  | _ => none

/-- `harmony_streamable_parser_current_role`: an absent role returns null
without recording an error. -/
def harmony_streamable_parser_current_role (handle : Option ParserCore)
    (st : ErrSlot) : Option Role × ErrSlot :=
  match handle with
  | none => (none, set_last_error "null handle" st)
  | some p => (currentRoleCore p, st)

/-- Content type of the in-progress message part, when one is known. -/
def currentContentTypeCore (p : ParserCore) : Option CType :=
  match p.state with
  | PState.collectContent _ _ _ _ ty _ _ => some ty
  | _ => none

/-- `harmony_streamable_parser_current_content_type`. -/
def harmony_streamable_parser_current_content_type (handle : Option ParserCore)
    (st : ErrSlot) : Option CType × ErrSlot :=
  match handle with
  | none => (none, set_last_error "null handle" st)
  | some p => (currentContentTypeCore p, st)

/-- `harmony_streamable_parser_last_content_delta`: an absent delta returns
null without recording an error. -/
def harmony_streamable_parser_last_content_delta (handle : Option ParserCore)
    (st : ErrSlot) : Option (List Nat) × ErrSlot :=
  match handle with
  | none => (none, set_last_error "null handle" st)
  | some p => (p.lastDelta, st)

/-- `harmony_streamable_parser_messages`. -/
def harmony_streamable_parser_messages (handle : Option ParserCore)
    (st : ErrSlot) : Option (List Message) × ErrSlot :=
  match handle with
  | none => (none, set_last_error "null handle" st)
  | some p => (some p.messages, st)

/-- `harmony_streamable_parser_tokens`. -/
def harmony_streamable_parser_tokens (handle : Option ParserCore)
    (st : ErrSlot) : Option (List Tok) × ErrSlot :=
  match handle with
  | none => (none, set_last_error "null handle" st)
  | some p => (some p.tokens, st)

/-- `harmony_streamable_parser_state`: the serialized snapshot is kept as the
structured parser state itself. -/
def harmony_streamable_parser_state (handle : Option ParserCore)
    (st : ErrSlot) : Option ParserCore × ErrSlot :=
  match handle with
  | none => (none, set_last_error "null handle" st)
  | some p => (some p, st)

/-- Recipient of the in-progress message, when one is known. -/
def currentRecipientCore (p : ParserCore) : Option (List Nat) :=
  match p.state with
  | PState.collectRecipient _ buf => some buf
  | PState.collectChannel _ rc _ => rc
  | PState.expectPartType _ rc _ _ => rc
  | PState.collectContent _ rc _ _ _ _ _ => rc
  | _ => none

/-- `harmony_streamable_parser_current_recipient`. -/
def harmony_streamable_parser_current_recipient (handle : Option ParserCore)
    (st : ErrSlot) : Option (List Nat) × ErrSlot :=
  match handle with
  | none => (none, set_last_error "null handle" st)
  | some p => (currentRecipientCore p, st)

/-- Channel of the in-progress message, when one is known. -/
def currentChannelCore (p : ParserCore) : Option (List Nat) :=
  match p.state with
  | PState.collectChannel _ _ buf => some buf
  | PState.expectPartType _ _ ch _ => ch
  | PState.collectContent _ _ ch _ _ _ _ => ch
  | _ => none

/-- `harmony_streamable_parser_current_channel`. -/
def harmony_streamable_parser_current_channel (handle : Option ParserCore)
    (st : ErrSlot) : Option (List Nat) × ErrSlot :=
  match handle with
  | none => (none, set_last_error "null handle" st)
  | some p => (currentChannelCore p, st)

/-- Modelled from the spec: the static tool-namespace descriptor. -/
structure ToolNamespaceConfig where
  name : String
deriving DecidableEq

/-- `harmony_get_tool_namespace_config`. -/
def harmony_get_tool_namespace_config (tool : CStrArg) (st : ErrSlot) :
    Option ToolNamespaceConfig × ErrSlot :=
  match tool with
  | CStrArg.null => (none, set_last_error "tool is null/invalid" st)
  | CStrArg.invalidUtf8 => (none, set_last_error "tool is null/invalid" st)
  | CStrArg.str t =>
    if t = "browser" then (some (ToolNamespaceConfig.mk "browser"), st)
    else if t = "python" then (some (ToolNamespaceConfig.mk "python"), st)
    else (none, set_last_error "unknown tool namespace" st)

/-! ## Properties of the incremental UTF-8 decoder -/

theorem isUtf8Char_ne_nil {c : List Nat} (h : isUtf8Char c = true) : c ≠ [] := by
  intro hc
  subst hc
  simp [isUtf8Char] at h

theorem takeChar_some {bs c rest : List Nat} (h : takeChar bs = some (c, rest)) :
    bs = c ++ rest ∧ isUtf8Char c = true := by
  cases bs with
  | nil => simp [takeChar] at h
  | cons b r =>
    simp only [takeChar] at h
    by_cases h0 : utf8Len b = 0
    · rw [if_pos h0] at h
      exact absurd h (by simp)
    · rw [if_neg h0] at h
      by_cases h1 : r.length + 1 < utf8Len b
      · rw [if_pos h1] at h
        exact absurd h (by simp)
      · rw [if_neg h1] at h
        by_cases h2 : (r.take (utf8Len b - 1)).all contByte
        · rw [if_pos h2] at h
          injection h with h
          injection h with hc hr
          subst hc
          subst hr
          constructor
          · rw [List.cons_append, List.take_append_drop]
          · have hmin : (r.take (utf8Len b - 1)).length = utf8Len b - 1 := by
              rw [List.length_take]
              omega
            simp only [isUtf8Char, Bool.and_eq_true, beq_iff_eq]
            constructor
            · rw [hmin]; omega
            · exact h2
        · rw [if_neg h2] at h
          exact absurd h (by simp)

theorem takeChar_shrinks {bs c rest : List Nat} (h : takeChar bs = some (c, rest)) :
    rest.length < bs.length := by
  obtain ⟨hsplit, hchar⟩ := takeChar_some h
  have hne := isUtf8Char_ne_nil hchar
  rw [hsplit, List.length_append]
  cases c with
  | nil => exact absurd rfl hne
  | cons x xs => simp

theorem utf8FlushAux_nil (fuel : Nat) : utf8FlushAux fuel [] = ([], []) := by
  cases fuel with
  | zero => rfl
  | succ n => simp [utf8FlushAux, takeChar]

theorem utf8FlushAux_split : ∀ (fuel : Nat) (bs : List Nat),
    (utf8FlushAux fuel bs).1 ++ (utf8FlushAux fuel bs).2 = bs := by
  intro fuel
  induction fuel with
  | zero => intro bs; simp [utf8FlushAux]
  | succ n ih =>
    intro bs
    simp only [utf8FlushAux]
    cases h : takeChar bs with
    | none => simp
    | some cr =>
      have hsplit := (@takeChar_some bs cr.1 cr.2 (by rw [h])).1
      simp only [List.append_assoc, ih cr.2]
      exact hsplit.symm

theorem utf8Flush_split (bs : List Nat) :
    (utf8Flush bs).1 ++ (utf8Flush bs).2 = bs :=
  utf8FlushAux_split bs.length bs

theorem takeChar_char_append {c : List Nat} (x : List Nat)
    (hc : isUtf8Char c = true) : takeChar (c ++ x) = some (c, x) := by
  cases c with
  | nil => simp [isUtf8Char] at hc
  | cons b t =>
    simp only [isUtf8Char, Bool.and_eq_true, beq_iff_eq] at hc
    obtain ⟨hlen, hall⟩ := hc
    simp only [List.cons_append, takeChar]
    rw [if_neg (by omega)]
    rw [if_neg (by simp [List.length_append]; omega)]
    have htake : (t ++ x).take (utf8Len b - 1) = t := by
      rw [hlen]
      simp only [Nat.add_sub_cancel]
      exact List.take_left t x
    have hdrop : (t ++ x).drop (utf8Len b - 1) = x := by
      rw [hlen]
      simp only [Nat.add_sub_cancel]
      exact List.drop_left t x
    rw [htake, hdrop, if_pos hall]

theorem takeChar_incomplete_front {bs1 : List Nat} (bs2 : List Nat)
    (h1 : bs1 ≠ []) (h2 : bs2 ≠ []) (hc : isUtf8Char (bs1 ++ bs2) = true) :
    takeChar bs1 = none := by
  cases bs1 with
  | nil => exact absurd rfl h1
  | cons b t =>
    simp only [List.cons_append, isUtf8Char, Bool.and_eq_true, beq_iff_eq] at hc
    obtain ⟨hlen, _⟩ := hc
    have hb2 : 0 < bs2.length := List.length_pos.mpr h2
    simp only [List.length_append] at hlen
    simp only [takeChar]
    rw [if_neg (by omega), if_pos (by omega)]

theorem utf8Flush_of_takeChar_none {bs : List Nat} (h : takeChar bs = none) :
    utf8Flush bs = ([], bs) := by
  cases hl : bs.length with
  | zero => simp [utf8Flush, hl, utf8FlushAux]
  | succ n => simp [utf8Flush, hl, utf8FlushAux, h]

theorem utf8Flush_of_char {bs : List Nat} (h : isUtf8Char bs = true) :
    utf8Flush bs = (bs, []) := by
  cases bs with
  | nil => simp [isUtf8Char] at h
  | cons b t =>
    have htc : takeChar (b :: t) = some (b :: t, []) := by
      have := takeChar_char_append [] h
      simpa using this
    simp only [utf8Flush, List.length_cons, utf8FlushAux, htc]
    simp [utf8FlushAux_nil]

theorem utf8Flush_incomplete_front {bs1 : List Nat} (bs2 : List Nat)
    (h1 : bs1 ≠ []) (h2 : bs2 ≠ []) (hc : isUtf8Char (bs1 ++ bs2) = true) :
    utf8Flush bs1 = ([], bs1) :=
  utf8Flush_of_takeChar_none (takeChar_incomplete_front bs2 h1 h2 hc)

theorem validUtf8Aux_congr : ∀ (f1 f2 : Nat) (bs : List Nat),
    bs.length ≤ f1 → bs.length ≤ f2 → validUtf8Aux f1 bs = validUtf8Aux f2 bs := by
  intro f1
  induction f1 with
  | zero =>
    intro f2 bs hb _
    have : bs = [] := List.length_eq_zero.mp (Nat.le_zero.mp hb)
    subst this
    cases f2 <;> rfl
  | succ n ih =>
    intro f2 bs hb hb2
    cases bs with
    | nil => cases f2 <;> rfl
    | cons b t =>
      cases f2 with
      | zero => simp at hb2
      | succ m =>
        simp only [validUtf8Aux]
        cases h : takeChar (b :: t) with
        | none => rfl
        | some cr =>
          have hlt := @takeChar_shrinks (b :: t) cr.1 cr.2 (by rw [h])
          simp only [List.length_cons] at hlt hb hb2
          exact ih m cr.2 (by omega) (by omega)

theorem validUtf8Aux_step {bs c rest : List Nat} (f : Nat)
    (h : takeChar bs = some (c, rest)) :
    validUtf8Aux (f + 1) bs = validUtf8Aux f rest := by
  cases bs with
  | nil => simp [takeChar] at h
  | cons b t => simp only [validUtf8Aux, h]

theorem validUtf8_char_append {c : List Nat} (x : List Nat)
    (hc : isUtf8Char c = true) (hx : validUtf8 x = true) :
    validUtf8 (c ++ x) = true := by
  have hne := isUtf8Char_ne_nil hc
  have hlen : 0 < c.length := List.length_pos.mpr hne
  have hstep : takeChar (c ++ x) = some (c, x) := takeChar_char_append x hc
  unfold validUtf8
  cases hl : (c ++ x).length with
  | zero =>
    simp only [List.length_append] at hl
    omega
  | succ n =>
    rw [validUtf8Aux_step n hstep]
    have hxn : x.length ≤ n := by
      simp only [List.length_append] at hl
      omega
    rw [validUtf8Aux_congr n x.length x hxn (Nat.le_refl _)]
    exact hx

theorem validUtf8_utf8FlushAux : ∀ (fuel : Nat) (bs : List Nat),
    validUtf8 (utf8FlushAux fuel bs).1 = true := by
  intro fuel
  induction fuel with
  | zero => intro bs; rfl
  | succ n ih =>
    intro bs
    simp only [utf8FlushAux]
    cases h : takeChar bs with
    | none => rfl
    | some cr =>
      have hchar := (@takeChar_some bs cr.1 cr.2 (by rw [h])).2
      exact validUtf8_char_append _ hchar (ih cr.2)

theorem validUtf8_utf8Flush (bs : List Nat) : validUtf8 (utf8Flush bs).1 = true :=
  validUtf8_utf8FlushAux bs.length bs

/-! ## Single-step behavior of the parser on rendered tokens -/

theorem processAllE_cons (p : ParserCore) (t : Tok) (ts : List Tok) :
    processAllE p (t :: ts) =
      match p.process t with
      | Except.ok q => processAllE q ts
      | Except.error e => Except.error e := rfl

theorem processAllE_append (p : ParserCore) (ts us : List Tok) :
    processAllE p (ts ++ us) =
      match processAllE p ts with
      | Except.ok q => processAllE q us
      | Except.error e => Except.error e := by
  induction ts generalizing p with
  | nil => simp [processAllE]
  | cons t ts ih =>
    simp only [List.cons_append, processAllE]
    cases p.process t with
    | ok q => exact ih q
    | error e => rfl

theorem process_start (ms : List Message) (tks : List Tok) (d : Option (List Nat)) :
    (ParserCore.mk PState.expectStart ms tks d).process Tok.start
      = Except.ok (ParserCore.mk PState.expectRole ms (tks ++ [Tok.start]) none) := rfl

theorem process_role (r : Role) (ms : List Message) (tks : List Tok)
    (d : Option (List Nat)) :
    (ParserCore.mk PState.expectRole ms tks d).process (Tok.role r)
      = Except.ok (ParserCore.mk (PState.afterRole r) ms (tks ++ [Tok.role r]) none) := rfl

theorem process_content_text (r : Role) (rc ch : Option (List Nat)) (acc : List CPart)
    (ty : CType) (f pnd bs : List Nat) (ms : List Message) (tks : List Tok)
    (d : Option (List Nat)) :
    (ParserCore.mk (PState.collectContent r rc ch acc ty f pnd) ms tks d).process
        (Tok.text bs)
      = Except.ok (ParserCore.mk
          (PState.collectContent r rc ch acc ty (f ++ (utf8Flush (pnd ++ bs)).1)
            (utf8Flush (pnd ++ bs)).2)
          ms (tks ++ [Tok.text bs])
          (if (utf8Flush (pnd ++ bs)).1 = [] then none
           else some (utf8Flush (pnd ++ bs)).1)) := rfl

theorem process_content_sep (r : Role) (rc ch : Option (List Nat)) (acc : List CPart)
    (ty : CType) (f pnd : List Nat) (ms : List Message) (tks : List Tok)
    (d : Option (List Nat)) (h : ¬f ++ pnd = []) :
    (ParserCore.mk (PState.collectContent r rc ch acc ty f pnd) ms tks d).process
        Tok.contentSep
      = Except.ok (ParserCore.mk
          (PState.expectPartType r rc ch (acc ++ [CPart.mk ty (f ++ pnd)]))
          ms (tks ++ [Tok.contentSep]) none) := by
  show (if f ++ pnd = [] then _ else _) = _
  rw [if_neg h]

theorem process_content_end (r : Role) (rc ch : Option (List Nat)) (acc : List CPart)
    (ty : CType) (f pnd : List Nat) (ms : List Message) (tks : List Tok)
    (d : Option (List Nat)) (h : ¬f ++ pnd = []) :
    (ParserCore.mk (PState.collectContent r rc ch acc ty f pnd) ms tks d).process
        Tok.endMsg
      = Except.ok (ParserCore.mk PState.expectStart
          (ms ++ [Message.mk r rc ch (acc ++ [CPart.mk ty (f ++ pnd)])])
          (tks ++ [Tok.endMsg]) none) := by
  show (if f ++ pnd = [] then _ else _) = _
  rw [if_neg h]

theorem process_part_type (r : Role) (rc ch : Option (List Nat)) (acc : List CPart)
    (ty : CType) (ms : List Message) (tks : List Tok) (d : Option (List Nat)) :
    (ParserCore.mk (PState.expectPartType r rc ch acc) ms tks d).process (Tok.ctype ty)
      = Except.ok (ParserCore.mk (PState.collectContent r rc ch acc ty [] []) ms
          (tks ++ [Tok.ctype ty]) none) := rfl

theorem encodeText_ne {bs : List Nat} (h : bs ≠ []) :
    encodeText bs = [Tok.text bs] := by
  rw [encodeText, if_neg h]

/-! ## The parser inverts the renderer (round-trip lemmas) -/

theorem processAllE_renderPartsRest (r : Role) (rc ch : Option (List Nat)) :
    ∀ (ps : List CPart) (acc : List CPart) (ty : CType) (f pnd : List Nat)
      (ms : List Message) (tks : List Tok) (d : Option (List Nat)),
      ¬f ++ pnd = [] → (∀ q ∈ ps, q.data ≠ []) →
      processAllE (ParserCore.mk (PState.collectContent r rc ch acc ty f pnd) ms tks d)
          (renderPartsRest ps ++ [Tok.endMsg])
        = Except.ok (ParserCore.mk PState.expectStart
            (ms ++ [Message.mk r rc ch (acc ++ CPart.mk ty (f ++ pnd) :: ps)])
            (tks ++ (renderPartsRest ps ++ [Tok.endMsg])) none) := by
  intro ps
  induction ps with
  | nil =>
    intro acc ty f pnd ms tks d hne _hwf
    simp only [renderPartsRest, List.nil_append, processAllE_cons,
      process_content_end r rc ch acc ty f pnd ms tks d hne, processAllE]
  | cons q ps ih =>
    intro acc ty f pnd ms tks d hne hwf
    have hq : q.data ≠ [] := hwf q (by simp)
    have hps : ∀ x ∈ ps, x.data ≠ [] := fun x hx => hwf x (by simp [hx])
    have hflush : (utf8Flush q.data).1 ++ (utf8Flush q.data).2 = q.data :=
      utf8Flush_split q.data
    simp only [renderPartsRest, encodeText_ne hq, List.cons_append, List.nil_append,
      processAllE_cons, process_content_sep r rc ch acc ty f pnd ms tks d hne,
      process_part_type, process_content_text]
    rw [ih (acc ++ [CPart.mk ty (f ++ pnd)]) q.ty (utf8Flush q.data).1
      (utf8Flush q.data).2 ms _ _ (by rw [hflush]; exact hq) hps]
    have hpart : CPart.mk q.ty ((utf8Flush q.data).1 ++ (utf8Flush q.data).2) = q := by
      rw [hflush]
    rw [hpart]
    simp [List.append_assoc]

theorem processAllE_firstPart (r : Role) (rc ch : Option (List Nat)) (ty : CType)
    (dta : List Nat) (ps : List CPart) (h1 : dta ≠ [])
    (hps : ∀ x ∈ ps, x.data ≠ []) :
    ∀ (ms : List Message) (tks : List Tok) (d : Option (List Nat)),
    processAllE (ParserCore.mk (PState.collectContent r rc ch [] ty [] []) ms tks d)
        (Tok.text dta :: (renderPartsRest ps ++ [Tok.endMsg]))
      = Except.ok (ParserCore.mk PState.expectStart
          (ms ++ [Message.mk r rc ch (CPart.mk ty dta :: ps)])
          (tks ++ (Tok.text dta :: (renderPartsRest ps ++ [Tok.endMsg]))) none) := by
  intro ms tks d
  rw [processAllE_cons, process_content_text]
  simp only [List.nil_append]
  rw [processAllE_renderPartsRest r rc ch ps [] ty (utf8Flush dta).1 (utf8Flush dta).2
    ms _ _ (by rw [utf8Flush_split]; exact h1) hps]
  have hpart : CPart.mk ty ((utf8Flush dta).1 ++ (utf8Flush dta).2) = CPart.mk ty dta := by
    rw [utf8Flush_split]
  rw [hpart]
  simp [List.append_assoc]

theorem process_after_role_recipient (r : Role) (ms : List Message) (tks : List Tok)
    (d : Option (List Nat)) :
    (ParserCore.mk (PState.afterRole r) ms tks d).process Tok.recipientMarker
      = Except.ok (ParserCore.mk (PState.collectRecipient r []) ms
          (tks ++ [Tok.recipientMarker]) none) := rfl

theorem process_after_role_channel (r : Role) (ms : List Message) (tks : List Tok)
    (d : Option (List Nat)) :
    (ParserCore.mk (PState.afterRole r) ms tks d).process Tok.channelMarker
      = Except.ok (ParserCore.mk (PState.collectChannel r none []) ms
          (tks ++ [Tok.channelMarker]) none) := rfl

theorem process_after_role_ctype (r : Role) (ty : CType) (ms : List Message)
    (tks : List Tok) (d : Option (List Nat)) :
    (ParserCore.mk (PState.afterRole r) ms tks d).process (Tok.ctype ty)
      = Except.ok (ParserCore.mk (PState.collectContent r none none [] ty [] []) ms
          (tks ++ [Tok.ctype ty]) none) := rfl

theorem process_recipient_text (r : Role) (buf bs : List Nat) (ms : List Message)
    (tks : List Tok) (d : Option (List Nat)) :
    (ParserCore.mk (PState.collectRecipient r buf) ms tks d).process (Tok.text bs)
      = Except.ok (ParserCore.mk (PState.collectRecipient r (buf ++ bs)) ms
          (tks ++ [Tok.text bs]) none) := rfl

theorem process_recipient_channel (r : Role) (buf : List Nat) (ms : List Message)
    (tks : List Tok) (d : Option (List Nat)) :
    (ParserCore.mk (PState.collectRecipient r buf) ms tks d).process Tok.channelMarker
      = Except.ok (ParserCore.mk (PState.collectChannel r (some buf) []) ms
          (tks ++ [Tok.channelMarker]) none) := rfl

theorem process_recipient_ctype (r : Role) (buf : List Nat) (ty : CType)
    (ms : List Message) (tks : List Tok) (d : Option (List Nat)) :
    (ParserCore.mk (PState.collectRecipient r buf) ms tks d).process (Tok.ctype ty)
      = Except.ok (ParserCore.mk (PState.collectContent r (some buf) none [] ty [] []) ms
          (tks ++ [Tok.ctype ty]) none) := rfl

theorem process_channel_text (r : Role) (rc : Option (List Nat)) (buf bs : List Nat)
    (ms : List Message) (tks : List Tok) (d : Option (List Nat)) :
    (ParserCore.mk (PState.collectChannel r rc buf) ms tks d).process (Tok.text bs)
      = Except.ok (ParserCore.mk (PState.collectChannel r rc (buf ++ bs)) ms
          (tks ++ [Tok.text bs]) none) := rfl

theorem process_channel_ctype (r : Role) (rc : Option (List Nat)) (buf : List Nat)
    (ty : CType) (ms : List Message) (tks : List Tok) (d : Option (List Nat)) :
    (ParserCore.mk (PState.collectChannel r rc buf) ms tks d).process (Tok.ctype ty)
      = Except.ok (ParserCore.mk (PState.collectContent r rc (some buf) [] ty [] []) ms
          (tks ++ [Tok.ctype ty]) none) := rfl

theorem processAllE_recipient_fill (r : Role) (rb : List Nat) (ms : List Message)
    (tks : List Tok) (d : Option (List Nat)) (rest' : List Tok) :
    processAllE (ParserCore.mk (PState.collectRecipient r []) ms tks d)
        (encodeText rb ++ rest')
      = processAllE (ParserCore.mk (PState.collectRecipient r rb) ms
          (tks ++ encodeText rb) (if rb = [] then d else none)) rest' := by
  by_cases h : rb = []
  · subst h
    simp [encodeText]
  · rw [encodeText_ne h]
    simp only [List.cons_append, List.nil_append, processAllE_cons, process_recipient_text]
    rw [if_neg h]

theorem processAllE_channel_fill (r : Role) (rc : Option (List Nat)) (cb : List Nat)
    (ms : List Message) (tks : List Tok) (d : Option (List Nat)) (rest' : List Tok) :
    processAllE (ParserCore.mk (PState.collectChannel r rc []) ms tks d)
        (encodeText cb ++ rest')
      = processAllE (ParserCore.mk (PState.collectChannel r rc cb) ms
          (tks ++ encodeText cb) (if cb = [] then d else none)) rest' := by
  by_cases h : cb = []
  · subst h
    simp [encodeText]
  · rw [encodeText_ne h]
    simp only [List.cons_append, List.nil_append, processAllE_cons, process_channel_text]
    rw [if_neg h]

theorem processAllE_renderMessage_mk (r : Role) (rc ch : Option (List Nat))
    (p1 : CPart) (ps : List CPart) (h1 : p1.data ≠ [])
    (hps : ∀ x ∈ ps, x.data ≠ []) :
    ∀ (ms : List Message) (tks : List Tok) (d : Option (List Nat)),
    processAllE (ParserCore.mk PState.expectStart ms tks d)
        (renderMessage (Message.mk r rc ch (p1 :: ps)))
      = Except.ok (ParserCore.mk PState.expectStart
          (ms ++ [Message.mk r rc ch (p1 :: ps)])
          (tks ++ renderMessage (Message.mk r rc ch (p1 :: ps))) none) := by
  intro ms tks d
  have hp1 : CPart.mk p1.ty p1.data = p1 := rfl
  rcases rc with _ | rb
  · rcases ch with _ | cb
    · simp only [renderMessage, renderParts, encodeText_ne h1, List.cons_append,
        List.nil_append, List.append_assoc, processAllE_cons, process_start,
        process_role, process_after_role_ctype,
        processAllE_firstPart r none none p1.ty p1.data ps h1 hps, hp1]
    · simp only [renderMessage, renderParts, encodeText_ne h1, List.cons_append,
        List.nil_append, List.append_assoc, processAllE_cons, process_start,
        process_role, process_after_role_channel]
      rw [processAllE_channel_fill r none cb]
      simp only [processAllE_cons, process_channel_ctype, List.cons_append,
        processAllE_firstPart r none (some cb) p1.ty p1.data ps h1 hps, hp1]
      simp [List.append_assoc]
  · rcases ch with _ | cb
    · simp only [renderMessage, renderParts, encodeText_ne h1, List.cons_append,
        List.nil_append, List.append_assoc, processAllE_cons, process_start,
        process_role, process_after_role_recipient]
      rw [processAllE_recipient_fill r rb]
      simp only [processAllE_cons, process_recipient_ctype, List.cons_append,
        processAllE_firstPart r (some rb) none p1.ty p1.data ps h1 hps, hp1]
      simp [List.append_assoc]
    · simp only [renderMessage, renderParts, encodeText_ne h1, List.cons_append,
        List.nil_append, List.append_assoc, processAllE_cons, process_start,
        process_role, process_after_role_recipient]
      rw [processAllE_recipient_fill r rb]
      simp only [processAllE_cons, process_recipient_channel, List.cons_append]
      rw [processAllE_channel_fill r (some rb) cb]
      simp only [processAllE_cons, process_channel_ctype, List.cons_append,
        processAllE_firstPart r (some rb) (some cb) p1.ty p1.data ps h1 hps, hp1]
      simp [List.append_assoc]

/-- Well-formedness required by the chat grammar: a message has at least one
content part and no part has empty content (the grammar rejects a
content-type marker with no following content). -/
def wfMessage (m : Message) : Prop :=
  m.content ≠ [] ∧ ∀ q ∈ m.content, q.data ≠ []

instance (m : Message) : Decidable (wfMessage m) :=
  inferInstanceAs (Decidable (m.content ≠ [] ∧ ∀ q ∈ m.content, q.data ≠ []))

theorem processAllE_renderMessage (m : Message) (hc : m.content ≠ [])
    (hw : ∀ q ∈ m.content, q.data ≠ []) (ms : List Message) (tks : List Tok)
    (d : Option (List Nat)) :
    processAllE (ParserCore.mk PState.expectStart ms tks d) (renderMessage m)
      = Except.ok (ParserCore.mk PState.expectStart (ms ++ [m])
          (tks ++ renderMessage m) none) := by
  obtain ⟨r, rc, ch, cont⟩ := m
  cases cont with
  | nil => exact absurd rfl hc
  | cons p1 ps =>
    exact processAllE_renderMessage_mk r rc ch p1 ps (hw p1 (by simp))
      (fun x hx => hw x (by simp [hx])) ms tks d

theorem processAllE_renderMsgs :
    ∀ (l : List Message), (∀ m ∈ l, wfMessage m) →
    ∀ (ms : List Message) (tks : List Tok) (d : Option (List Nat)), ∃ d',
    processAllE (ParserCore.mk PState.expectStart ms tks d) (renderMsgs l)
      = Except.ok (ParserCore.mk PState.expectStart (ms ++ l)
          (tks ++ renderMsgs l) d') := by
  intro l
  induction l with
  | nil =>
    intro _ ms tks d
    exact ⟨d, by simp [renderMsgs, processAllE]⟩
  | cons m l ih =>
    intro hwf ms tks d
    obtain ⟨hc, hw⟩ := hwf m (by simp)
    have hl : ∀ x ∈ l, wfMessage x := fun x hx => hwf x (by simp [hx])
    rw [renderMsgs, processAllE_append]
    rw [processAllE_renderMessage m hc hw ms tks d]
    obtain ⟨d', hd⟩ := ih hl (ms ++ [m]) (tks ++ renderMessage m) none
    refine ⟨d', ?_⟩
    show processAllE (ParserCore.mk PState.expectStart (ms ++ [m])
      (tks ++ renderMessage m) none) (renderMsgs l) = _
    rw [hd]
    simp [List.append_assoc]

/-- Parsing the full rendering of a well-formed message list recovers
exactly that list. -/
theorem parse_renderMsgs (l : List Message) (hwf : ∀ m ∈ l, wfMessage m) :
    parseMessagesFromCompletionTokens (renderMsgs l) none = Except.ok l := by
  obtain ⟨d', hd⟩ := processAllE_renderMsgs l hwf [] [] none
  rw [parseMessagesFromCompletionTokens]
  have hinit : initCore none = ParserCore.mk PState.expectStart [] [] none := rfl
  rw [hinit, hd]
  simp [ParserCore.processEos, finalizeMsg]

/-- Sample encoding handle used in concrete instances. -/
def enc0 : HarmonyEncoding := HarmonyEncoding.mk "HarmonyGptOss"

/-- Sample user message. -/
def msgUser : Message :=
  Message.mk Role.user none none [CPart.mk CType.text (strBytes "hi")]

/-- Sample assistant message on the "analysis" channel. -/
def msgAnalysis : Message :=
  Message.mk Role.assistant none (some analysisBytes)
    [CPart.mk CType.text (strBytes "thinking")]

/-- Sample assistant message with recipient, channel and two content parts. -/
def msgFinal : Message :=
  Message.mk Role.assistant (some (strBytes "browser.search"))
    (some (strBytes "final"))
    [CPart.mk CType.text (strBytes "hello"), CPart.mk CType.toolPayload (strBytes "payload")]

/-- Sample two-message conversation. -/
def conv0 : Conversation := Conversation.mk [msgUser, msgFinal]

/-- Sample conversation whose first message is non-final assistant
"analysis" content. -/
def convDrop : Conversation := Conversation.mk [msgAnalysis, msgUser]

theorem streamFeed_of_ok : ∀ (ts : List Tok) (p q : ParserCore),
    processAllE p ts = Except.ok q → streamFeed p ts = q := by
  intro ts
  induction ts with
  | nil =>
    intro p q h
    simp only [processAllE, Except.ok.injEq] at h
    simpa [streamFeed] using h
  | cons t ts ih =>
    intro p q h
    simp only [processAllE] at h
    simp only [streamFeed]
    cases hp : p.process t with
    | ok p' =>
      rw [hp] at h
      exact ih p' q h
    | error e =>
      rw [hp] at h
      exact absurd h (by simp)

/-! ## Claim C1 -/

/-- Claim C1 as frozen is false: it quantifies over every render config, but a
config with `auto_drop_analysis` enabled removes a non-final assistant
"analysis" message before rendering, so the parsed result of the training
rendering of `convDrop` is `[msgUser]` and does not reproduce `msgAnalysis`. -/
theorem c1_roundtrip_counterexample :
    parseMessagesFromCompletionTokens
        (renderedTraining convDrop (some (RenderConversationConfig.mk true))) none
      = Except.ok [msgUser]
    ∧ convDrop.messages ≠ [msgUser] :=
  ⟨rfl, by decide⟩

/-- Claim C1 (amended): for every Conversation and render config, parsing the
training rendering reproduces role, recipient, channel and content-part
boundaries of every message the config's `auto_drop_analysis` pre-pass
keeps — hence of every message of the conversation whenever
`auto_drop_analysis` is off — provided each rendered message has at least one
content part and no empty-content part (which the grammar rejects). -/
theorem c1_roundtrip_amended (c : Conversation)
    (cfg : Option RenderConversationConfig)
    (hwf : ∀ m ∈ applyConfig cfg c.messages, wfMessage m) :
    parseMessagesFromCompletionTokens (renderedTraining c cfg) none
      = Except.ok (applyConfig cfg c.messages)
    ∧ applyConfig (some (RenderConversationConfig.mk false)) c.messages
      = c.messages := by
  constructor
  · exact parse_renderMsgs _ hwf
  · simp [applyConfig]

/-- Witness for C1 (amended) at a concrete conversation and the default
config. -/
theorem c1_roundtrip_amended_witness :
    parseMessagesFromCompletionTokens (renderedTraining conv0 none) none
      = Except.ok (applyConfig none conv0.messages)
    ∧ applyConfig (some (RenderConversationConfig.mk false)) conv0.messages
      = conv0.messages :=
  c1_roundtrip_amended conv0 none (by decide)

/-! ## Claim C2 -/

/-- Claim C2: feeding a streaming parser every token one at a time via
`process` (continuing past erroring tokens, which leave the state untouched)
and then `process_eos` yields exactly the completed-messages list that the
one-shot `parse_messages_from_completion_tokens` returns on the same token
sequence, whenever the one-shot parse returns a list at all. -/
theorem c2_streaming_equivalence (ts : List Tok) (role : Option Role)
    (msgs : List Message)
    (h : parseMessagesFromCompletionTokens ts role = Except.ok msgs) :
    (streamFeed (initCore role) ts).processEos.messages = msgs := by
  rw [parseMessagesFromCompletionTokens] at h
  cases hp : processAllE (initCore role) ts with
  | ok q =>
    rw [hp] at h
    simp only [Except.ok.injEq] at h
    rw [streamFeed_of_ok ts (initCore role) q hp]
    exact h
  | error e =>
    rw [hp] at h
    exact absurd h (by simp)

/-- Witness for C2 on a concrete rendered token sequence. -/
theorem c2_streaming_equivalence_witness :
    (streamFeed (initCore none) (renderMsgs [msgUser])).processEos.messages
      = [msgUser] :=
  c2_streaming_equivalence (renderMsgs [msgUser]) none [msgUser] rfl

/-! ## Claim C3 -/

/-- Claim C3: splitting one multi-byte UTF-8 character across two `process`
calls (the parser collecting content with an empty pending buffer) reports no
content delta after the first call, reports exactly that character as the
delta of the second call, loses and duplicates no byte (the flushed bytes
grow by exactly the character and the pending buffer empties), and the
flushed content exposed to callers is always valid decodable UTF-8 (first
conjunct: any flush splits the buffer without loss into a valid decodable
prefix and the buffered tail). -/
theorem c3_utf8_split_delta :
    (∀ bs : List Nat, (utf8Flush bs).1 ++ (utf8Flush bs).2 = bs
        ∧ validUtf8 (utf8Flush bs).1 = true)
    ∧ ∀ (p : ParserCore) (r : Role) (rc ch : Option (List Nat)) (acc : List CPart)
        (ty : CType) (f bs1 bs2 : List Nat),
        p.state = PState.collectContent r rc ch acc ty f [] →
        bs1 ≠ [] → bs2 ≠ [] → isUtf8Char (bs1 ++ bs2) = true →
        p.process (Tok.text bs1)
            = Except.ok (ParserCore.mk (PState.collectContent r rc ch acc ty f bs1)
                p.messages (p.tokens ++ [Tok.text bs1]) none)
          ∧ (ParserCore.mk (PState.collectContent r rc ch acc ty f bs1)
                p.messages (p.tokens ++ [Tok.text bs1]) none).process (Tok.text bs2)
            = Except.ok (ParserCore.mk
                (PState.collectContent r rc ch acc ty (f ++ (bs1 ++ bs2)) [])
                p.messages (p.tokens ++ [Tok.text bs1, Tok.text bs2])
                (some (bs1 ++ bs2)))
          ∧ validUtf8 (bs1 ++ bs2) = true := by
  constructor
  · intro bs
    exact ⟨utf8Flush_split bs, validUtf8_utf8Flush bs⟩
  · intro p r rc ch acc ty f bs1 bs2 hst h1 h2 hc
    obtain ⟨st, ms, tks, d⟩ := p
    simp only at hst
    subst hst
    have hflush1 : utf8Flush bs1 = ([], bs1) := utf8Flush_incomplete_front bs2 h1 h2 hc
    have hflush2 : utf8Flush (bs1 ++ bs2) = (bs1 ++ bs2, []) := utf8Flush_of_char hc
    have hne12 : ¬(bs1 ++ bs2) = [] := by
      intro hcontra
      exact h1 (List.append_eq_nil.mp hcontra).1
    refine ⟨?_, ?_, ?_⟩
    · rw [process_content_text]
      simp only [List.nil_append, hflush1, List.append_nil]
      rfl
    · rw [process_content_text]
      simp only [hflush2]
      rw [if_neg hne12]
      simp [List.append_assoc]
    · have hval : validUtf8 ((bs1 ++ bs2) ++ []) = true :=
        validUtf8_char_append [] hc rfl
      simpa using hval

/-- Witness for C3: the two bytes of U+00E9 split across two `process`
calls. -/
theorem c3_utf8_split_delta_witness :
    (ParserCore.mk (PState.collectContent Role.assistant none none [] CType.text [] [])
        [] [] none).process (Tok.text [195])
      = Except.ok (ParserCore.mk
          (PState.collectContent Role.assistant none none [] CType.text [] [195])
          [] [Tok.text [195]] none)
    ∧ (ParserCore.mk (PState.collectContent Role.assistant none none [] CType.text [] [195])
        [] [Tok.text [195]] none).process (Tok.text [169])
      = Except.ok (ParserCore.mk
          (PState.collectContent Role.assistant none none [] CType.text
            ([] ++ ([195] ++ [169])) [])
          [] [Tok.text [195], Tok.text [169]] (some ([195] ++ [169])))
    ∧ validUtf8 ([195] ++ [169]) = true :=
  c3_utf8_split_delta.2
    (ParserCore.mk (PState.collectContent Role.assistant none none [] CType.text [] [])
      [] [] none)
    Role.assistant none none [] CType.text [] [195] [169] rfl
    (by decide) (by decide) (by decide)

/-! ## Claim C4 -/

/-- Claim C4: a string that is not one of the five role names, passed as
`next_turn_role` to `harmony_render_conversation_for_completion`, makes the
call fail with the "unknown role" error for every conversation, config and
prior error-slot state (the conversation, passed by value in this pure
embedding, is never modified); and a string parses to a Role only if it is
one of the five known role names. -/
theorem c4_unknown_role_rejected :
    (∀ (enc : HarmonyEncoding) (conv : Conversation)
        (cfgArg : CArg RenderConversationConfig) (st : ErrSlot) (s : String),
        roleFromString s = none →
        harmony_render_conversation_for_completion (some enc) (CArg.jsonOk conv)
            (CStrArg.str s) cfgArg st
          = (none, some "unknown role"))
    ∧ ∀ s : String, s ≠ "system" → s ≠ "developer" → s ≠ "user" →
        s ≠ "assistant" → s ≠ "tool" → roleFromString s = none := by
  constructor
  · intro enc conv cfgArg st s hs
    have hred : harmony_render_conversation_for_completion (some enc)
        (CArg.jsonOk conv) (CStrArg.str s) cfgArg st
        = (match roleFromString s with
           | none => (none, set_last_error "unknown role" st)
           | some role =>
             match render_conversation_for_completion_core conv role
                 (parse_render_config cfgArg) with
             | Except.ok tokens => (some tokens, st)
             | Except.error e => (none, set_last_error (errToString e) st)) := rfl
    rw [hred, hs]
    rfl
  · intro s h1 h2 h3 h4 h5
    unfold roleFromString
    split <;> simp_all

/-- Witness for C4 with the spec's "narrator" scenario. -/
theorem c4_unknown_role_rejected_witness :
    harmony_render_conversation_for_completion (some enc0) (CArg.jsonOk conv0)
        (CStrArg.str "narrator") CArg.null none
      = (none, some "unknown role")
    ∧ roleFromString "narrator" = none :=
  ⟨c4_unknown_role_rejected.1 enc0 conv0 CArg.null none "narrator" (by decide),
   c4_unknown_role_rejected.2 "narrator" (by decide) (by decide) (by decide)
     (by decide) (by decide)⟩

/-! ## Shared error-path lemmas for the wrapper layer -/

theorem encoding_new_unknown_name (s : String) (st : ErrSlot)
    (hs : s ≠ "HarmonyGptOss") :
    harmony_encoding_new (CStrArg.str s) st
      = (none, set_last_error ("invalid encoding name: " ++ s) st) := by
  have hred : harmony_encoding_new (CStrArg.str s) st
      = (match load_harmony_encoding s with
         | Except.ok enc => (some enc, st)
         | Except.error e => (none, set_last_error e st)) := rfl
  rw [hred, load_harmony_encoding, if_neg hs]

theorem completion_unknown_role (enc : HarmonyEncoding) (conv : Conversation)
    (cfgj : CArg RenderConversationConfig) (st : ErrSlot) (s : String)
    (hs : roleFromString s = none) :
    harmony_render_conversation_for_completion (some enc) (CArg.jsonOk conv)
        (CStrArg.str s) cfgj st
      = (none, set_last_error "unknown role" st) := by
  have hred : harmony_render_conversation_for_completion (some enc)
      (CArg.jsonOk conv) (CStrArg.str s) cfgj st
      = (match roleFromString s with
         | none => (none, set_last_error "unknown role" st)
         | some role =>
           match render_conversation_for_completion_core conv role
               (parse_render_config cfgj) with
           | Except.ok tokens => (some tokens, st)
           | Except.error e => (none, set_last_error (errToString e) st)) := rfl
  rw [hred, hs]

theorem parser_process_reports_error (p : ParserCore) (t : Tok) (st : ErrSlot)
    (e : HError) (hp : p.process t = Except.error e) :
    harmony_streamable_parser_process (some p) t st
      = (-1, set_last_error (errToString e) st, some p) := by
  rw [harmony_streamable_parser_process, hp]

theorem parse_messages_core_error (enc : HarmonyEncoding) (ts : List Tok)
    (roleArg : CStrArg) (st : ErrSlot) (e : HError)
    (hp : parseMessagesFromCompletionTokens ts (roleParsedLenient roleArg)
      = Except.error e) :
    harmony_parse_messages_from_completion_tokens (some enc) (CArg.jsonOk ts)
        roleArg st
      = (none, set_last_error (errToString e) st) := by
  have hred : harmony_parse_messages_from_completion_tokens (some enc)
      (CArg.jsonOk ts) roleArg st
      = (match parseMessagesFromCompletionTokens ts (roleParsedLenient roleArg) with
         | Except.ok msgs => (some msgs, st)
         | Except.error e => (none, set_last_error (errToString e) st)) := rfl
  rw [hred, hp]

theorem decode_utf8_core_error (enc : HarmonyEncoding) (ts : List Tok)
    (st : ErrSlot) (e : HError) (hd : decodeUtf8Model ts = Except.error e) :
    harmony_decode_utf8 (some enc) (CArg.jsonOk ts) st
      = (none, set_last_error (errToString e) st) := by
  have hred : harmony_decode_utf8 (some enc) (CArg.jsonOk ts) st
      = (match decodeUtf8Model ts with
         | Except.ok s => (some s, st)
         | Except.error e => (none, set_last_error (errToString e) st)) := rfl
  rw [hred, hd]

theorem tool_namespace_unknown (t : String) (st : ErrSlot) (h1 : t ≠ "browser")
    (h2 : t ≠ "python") :
    harmony_get_tool_namespace_config (CStrArg.str t) st
      = (none, some "unknown tool namespace") := by
  have hred : harmony_get_tool_namespace_config (CStrArg.str t) st
      = (if t = "browser" then (some (ToolNamespaceConfig.mk "browser"), st)
         else if t = "python" then (some (ToolNamespaceConfig.mk "python"), st)
         else (none, set_last_error "unknown tool namespace" st)) := rfl
  rw [hred, if_neg h1, if_neg h2]
  rfl

theorem set_last_error_stores_nonempty (e : String) (st : ErrSlot) (he : e ≠ "") :
    ∃ m, set_last_error e st = some m ∧ m ≠ "" := by
  by_cases hnul : containsNulByte e = true
  · refine ⟨"unknown error", ?_, by decide⟩
    rw [set_last_error, if_pos hnul]
  · refine ⟨e, ?_, he⟩
    rw [set_last_error, if_neg hnul]

theorem errToString_nonempty (e : HError) : errToString e ≠ "" := by
  cases e <;> decide

theorem config_fallback_conversation (h : Option HarmonyEncoding)
    (cj : CArg Conversation) (e : String) (st : ErrSlot) :
    harmony_render_conversation h cj (CArg.parseFail e) st
      = harmony_render_conversation h cj CArg.null st := by
  cases h with
  | none => rfl
  | some enc => cases cj <;> rfl

theorem config_fallback_training (h : Option HarmonyEncoding)
    (cj : CArg Conversation) (e : String) (st : ErrSlot) :
    harmony_render_conversation_for_training h cj (CArg.parseFail e) st
      = harmony_render_conversation_for_training h cj CArg.null st := by
  cases h with
  | none => rfl
  | some enc => cases cj <;> rfl

theorem config_fallback_completion (h : Option HarmonyEncoding)
    (cj : CArg Conversation) (rj : CStrArg) (e : String) (st : ErrSlot) :
    harmony_render_conversation_for_completion h cj rj (CArg.parseFail e) st
      = harmony_render_conversation_for_completion h cj rj CArg.null st := by
  cases h with
  | none => rfl
  | some enc =>
    cases cj with
    | null => rfl
    | invalidUtf8 => rfl
    | parseFail e2 => cases rj <;> rfl
    | jsonOk conv =>
      cases rj with
      | null => rfl
      | invalidUtf8 => rfl
      | str s =>
        have hred : ∀ cfgj : CArg RenderConversationConfig,
            harmony_render_conversation_for_completion (some enc)
                (CArg.jsonOk conv) (CStrArg.str s) cfgj st
              = (match roleFromString s with
                 | none => (none, set_last_error "unknown role" st)
                 | some role =>
                   match render_conversation_for_completion_core conv role
                       (parse_render_config cfgj) with
                   | Except.ok tokens => (some tokens, st)
                   | Except.error e => (none, set_last_error (errToString e) st)) :=
          fun _ => rfl
        rw [hred (CArg.parseFail e), hred CArg.null]
        rfl

theorem options_fallback_render (h : Option HarmonyEncoding) (mj : CArg Message)
    (e : String) (st : ErrSlot) :
    harmony_render h mj (CArg.parseFail e) st
      = harmony_render h mj CArg.null st := by
  cases h with
  | none => rfl
  | some enc => cases mj <;> rfl

theorem allowed_fallback_encode (h : Option HarmonyEncoding) (txt : CStrArg)
    (e : String) (st : ErrSlot) :
    harmony_encode h txt (CArg.parseFail e) st
      = harmony_encode h txt CArg.null st := by
  cases h <;> rfl

theorem role_fallback_parse_messages (h : Option HarmonyEncoding)
    (tj : CArg (List Tok)) (st : ErrSlot) (s : String)
    (hs : roleFromString s = none) :
    harmony_parse_messages_from_completion_tokens h tj (CStrArg.str s) st
      = harmony_parse_messages_from_completion_tokens h tj CStrArg.null st := by
  cases h with
  | none => rfl
  | some enc =>
    cases tj with
    | null => rfl
    | invalidUtf8 => rfl
    | parseFail e => rfl
    | jsonOk ts =>
      simp only [harmony_parse_messages_from_completion_tokens,
        roleParsedLenient, hs]

theorem role_fallback_parser_new (h : Option HarmonyEncoding) (st : ErrSlot)
    (s : String) (hs : roleFromString s = none) :
    harmony_streamable_parser_new h (CStrArg.str s) st
      = harmony_streamable_parser_new h CStrArg.null st := by
  cases h with
  | none => rfl
  | some enc =>
    simp only [harmony_streamable_parser_new, roleParsedLenient, hs]

/-! ## Claim C5 -/

/-- Claim C5 as frozen is false: a config-JSON deserialization failure in
`harmony_render_conversation` is silently discarded by
`parse_render_config`'s `.ok()` — the call succeeds with the defaults and the
last-error slot is left untouched (`none`), although the failing operation is
not `process_eos`. -/
theorem c5_swallowed_error_counterexample :
    harmony_render_conversation (some enc0) (CArg.jsonOk conv0)
        (CArg.parseFail "boom") none
      = (some (renderedConversation conv0 none), none) := rfl

/-- Claim C5 (amended): every error of the wrapper layer is returned to the
immediate caller with a recorded non-empty diagnostic, except `process_eos`'s
best-effort finalize and five wrapper-level silent fallbacks.  Group (I):
every null-handle failure stores its message and returns the sentinel.
Group (II): every argument-validation failure (null, non-UTF-8 or rejected
JSON for conversation, message, tokens, name, role and tool) stores its
message and returns null.  Group (III): every core error reachable in the
model (streaming `process` errors with the parser state unchanged, one-shot
parse errors, UTF-8 decode failures) stores its diagnostic and returns the
sentinel.  Group (IV): a stored diagnostic is never empty.  Group (V): the
five silent fallbacks — rejected `config_json` behaves exactly like no config
in all three conversation renders, rejected `render_options_json` like no
options in `harmony_render`, an unknown role string like no role in
`harmony_parse_messages_from_completion_tokens` and
`harmony_streamable_parser_new`, null or non-UTF-8 text like the empty string
in `harmony_encode`, and rejected `allowed_special_json` like the empty
allowed-special set in `harmony_encode`.  Group (VI): `process_eos` never
reports an error. -/
theorem c5_error_propagation_amended :
    ((∀ st : ErrSlot, harmony_encoding_name none st = (none, some "null handle"))
      ∧ (∀ (cj : CArg Conversation) (rj : CStrArg)
          (cfgj : CArg RenderConversationConfig) (st : ErrSlot),
          harmony_render_conversation_for_completion none cj rj cfgj st
            = (none, some "null handle"))
      ∧ (∀ (cj : CArg Conversation) (cfgj : CArg RenderConversationConfig)
          (st : ErrSlot),
          harmony_render_conversation none cj cfgj st = (none, some "null handle"))
      ∧ (∀ (cj : CArg Conversation) (cfgj : CArg RenderConversationConfig)
          (st : ErrSlot),
          harmony_render_conversation_for_training none cj cfgj st
            = (none, some "null handle"))
      ∧ (∀ (mj : CArg Message) (oj : CArg RenderOptions) (st : ErrSlot),
          harmony_render none mj oj st = (none, some "null handle"))
      ∧ (∀ (tj : CArg (List Tok)) (rj : CStrArg) (st : ErrSlot),
          harmony_parse_messages_from_completion_tokens none tj rj st
            = (none, some "null handle"))
      ∧ (∀ (tj : CArg (List Tok)) (st : ErrSlot),
          harmony_decode_utf8 none tj st = (none, some "null handle"))
      ∧ (∀ (tj : CArg (List Tok)) (st : ErrSlot),
          harmony_decode_bytes none tj st = (none, some "null handle"))
      ∧ (∀ (txt : CStrArg) (aj : CArg (List String)) (st : ErrSlot),
          harmony_encode none txt aj st = (none, some "null handle"))
      ∧ (∀ st : ErrSlot, harmony_special_tokens none st = (none, some "null handle"))
      ∧ (∀ (t : Tok) (st : ErrSlot),
          harmony_is_special_token none t st = (-1, some "null handle"))
      ∧ (∀ st : ErrSlot, harmony_stop_tokens none st = (none, some "null handle"))
      ∧ (∀ st : ErrSlot, harmony_stop_tokens_for_assistant_actions none st
          = (none, some "null handle"))
      ∧ (∀ (rj : CStrArg) (st : ErrSlot),
          harmony_streamable_parser_new none rj st
            = (none, some "null encoding handle"))
      ∧ (∀ (t : Tok) (st : ErrSlot),
          harmony_streamable_parser_process none t st
            = (-1, some "null handle", none))
      ∧ (∀ st : ErrSlot, harmony_streamable_parser_process_eos none st
          = (-1, some "null handle", none))
      ∧ (∀ st : ErrSlot, harmony_streamable_parser_current_content none st
          = (none, some "null handle"))
      ∧ (∀ st : ErrSlot, harmony_streamable_parser_current_role none st
          = (none, some "null handle"))
      ∧ (∀ st : ErrSlot, harmony_streamable_parser_current_content_type none st
          = (none, some "null handle"))
      ∧ (∀ st : ErrSlot, harmony_streamable_parser_last_content_delta none st
          = (none, some "null handle"))
      ∧ (∀ st : ErrSlot, harmony_streamable_parser_messages none st
          = (none, some "null handle"))
      ∧ (∀ st : ErrSlot, harmony_streamable_parser_tokens none st
          = (none, some "null handle"))
      ∧ (∀ st : ErrSlot, harmony_streamable_parser_state none st
          = (none, some "null handle"))
      ∧ (∀ st : ErrSlot, harmony_streamable_parser_current_recipient none st
          = (none, some "null handle"))
      ∧ (∀ st : ErrSlot, harmony_streamable_parser_current_channel none st
          = (none, some "null handle")))
    ∧ ((∀ st : ErrSlot, harmony_encoding_new CStrArg.null st
          = (none, some "name is null or invalid"))
      ∧ (∀ st : ErrSlot, harmony_encoding_new CStrArg.invalidUtf8 st
          = (none, some "name is null or invalid"))
      ∧ (∀ (s : String) (st : ErrSlot), s ≠ "HarmonyGptOss" →
          harmony_encoding_new (CStrArg.str s) st
            = (none, set_last_error ("invalid encoding name: " ++ s) st))
      ∧ (∀ (enc : HarmonyEncoding) (rj : CStrArg)
          (cfgj : CArg RenderConversationConfig) (st : ErrSlot),
          harmony_render_conversation_for_completion (some enc) CArg.null rj cfgj st
            = (none, some "conversation_json or next_turn_role is null/invalid"))
      ∧ (∀ (enc : HarmonyEncoding) (rj : CStrArg)
          (cfgj : CArg RenderConversationConfig) (st : ErrSlot),
          harmony_render_conversation_for_completion (some enc) CArg.invalidUtf8 rj
              cfgj st
            = (none, some "conversation_json or next_turn_role is null/invalid"))
      ∧ (∀ (enc : HarmonyEncoding) (cj : CArg Conversation)
          (cfgj : CArg RenderConversationConfig) (st : ErrSlot),
          harmony_render_conversation_for_completion (some enc) cj CStrArg.null
              cfgj st
            = (none, some "conversation_json or next_turn_role is null/invalid"))
      ∧ (∀ (enc : HarmonyEncoding) (cj : CArg Conversation)
          (cfgj : CArg RenderConversationConfig) (st : ErrSlot),
          harmony_render_conversation_for_completion (some enc) cj
              CStrArg.invalidUtf8 cfgj st
            = (none, some "conversation_json or next_turn_role is null/invalid"))
      ∧ (∀ (enc : HarmonyEncoding) (e s : String)
          (cfgj : CArg RenderConversationConfig) (st : ErrSlot),
          harmony_render_conversation_for_completion (some enc) (CArg.parseFail e)
              (CStrArg.str s) cfgj st
            = (none, set_last_error ("invalid conversation JSON: " ++ e) st))
      ∧ (∀ (enc : HarmonyEncoding) (conv : Conversation)
          (cfgj : CArg RenderConversationConfig) (st : ErrSlot) (s : String),
          roleFromString s = none →
          harmony_render_conversation_for_completion (some enc) (CArg.jsonOk conv)
              (CStrArg.str s) cfgj st
            = (none, set_last_error "unknown role" st))
      ∧ (∀ (enc : HarmonyEncoding) (cfgj : CArg RenderConversationConfig)
          (st : ErrSlot),
          harmony_render_conversation (some enc) CArg.null cfgj st
            = (none, some "conversation_json is null/invalid"))
      ∧ (∀ (enc : HarmonyEncoding) (cfgj : CArg RenderConversationConfig)
          (st : ErrSlot),
          harmony_render_conversation (some enc) CArg.invalidUtf8 cfgj st
            = (none, some "conversation_json is null/invalid"))
      ∧ (∀ (enc : HarmonyEncoding) (e : String)
          (cfgj : CArg RenderConversationConfig) (st : ErrSlot),
          harmony_render_conversation (some enc) (CArg.parseFail e) cfgj st
            = (none, set_last_error ("invalid conversation JSON: " ++ e) st))
      ∧ (∀ (enc : HarmonyEncoding) (cfgj : CArg RenderConversationConfig)
          (st : ErrSlot),
          harmony_render_conversation_for_training (some enc) CArg.null cfgj st
            = (none, some "conversation_json is null/invalid"))
      ∧ (∀ (enc : HarmonyEncoding) (cfgj : CArg RenderConversationConfig)
          (st : ErrSlot),
          harmony_render_conversation_for_training (some enc) CArg.invalidUtf8
              cfgj st
            = (none, some "conversation_json is null/invalid"))
      ∧ (∀ (enc : HarmonyEncoding) (e : String)
          (cfgj : CArg RenderConversationConfig) (st : ErrSlot),
          harmony_render_conversation_for_training (some enc) (CArg.parseFail e)
              cfgj st
            = (none, set_last_error ("invalid conversation JSON: " ++ e) st))
      ∧ (∀ (enc : HarmonyEncoding) (oj : CArg RenderOptions) (st : ErrSlot),
          harmony_render (some enc) CArg.null oj st
            = (none, some "message_json is null/invalid"))
      ∧ (∀ (enc : HarmonyEncoding) (oj : CArg RenderOptions) (st : ErrSlot),
          harmony_render (some enc) CArg.invalidUtf8 oj st
            = (none, some "message_json is null/invalid"))
      ∧ (∀ (enc : HarmonyEncoding) (e : String) (oj : CArg RenderOptions)
          (st : ErrSlot),
          harmony_render (some enc) (CArg.parseFail e) oj st
            = (none, set_last_error ("invalid message JSON: " ++ e) st))
      ∧ (∀ (enc : HarmonyEncoding) (rj : CStrArg) (st : ErrSlot),
          harmony_parse_messages_from_completion_tokens (some enc) CArg.null rj st
            = (none, some "tokens_json is null/invalid"))
      ∧ (∀ (enc : HarmonyEncoding) (rj : CStrArg) (st : ErrSlot),
          harmony_parse_messages_from_completion_tokens (some enc)
              CArg.invalidUtf8 rj st
            = (none, some "tokens_json is null/invalid"))
      ∧ (∀ (enc : HarmonyEncoding) (e : String) (rj : CStrArg) (st : ErrSlot),
          harmony_parse_messages_from_completion_tokens (some enc)
              (CArg.parseFail e) rj st
            = (none, set_last_error ("invalid tokens JSON: " ++ e) st))
      ∧ (∀ (enc : HarmonyEncoding) (st : ErrSlot),
          harmony_decode_utf8 (some enc) CArg.null st
            = (none, some "tokens_json is null/invalid"))
      ∧ (∀ (enc : HarmonyEncoding) (st : ErrSlot),
          harmony_decode_utf8 (some enc) CArg.invalidUtf8 st
            = (none, some "tokens_json is null/invalid"))
      ∧ (∀ (enc : HarmonyEncoding) (e : String) (st : ErrSlot),
          harmony_decode_utf8 (some enc) (CArg.parseFail e) st
            = (none, set_last_error ("invalid tokens JSON: " ++ e) st))
      ∧ (∀ (enc : HarmonyEncoding) (st : ErrSlot),
          harmony_decode_bytes (some enc) CArg.null st
            = (none, some "tokens_json is null/invalid"))
      ∧ (∀ (enc : HarmonyEncoding) (st : ErrSlot),
          harmony_decode_bytes (some enc) CArg.invalidUtf8 st
            = (none, some "tokens_json is null/invalid"))
      ∧ (∀ (enc : HarmonyEncoding) (e : String) (st : ErrSlot),
          harmony_decode_bytes (some enc) (CArg.parseFail e) st
            = (none, set_last_error ("invalid tokens JSON: " ++ e) st))
      ∧ (∀ st : ErrSlot, harmony_get_tool_namespace_config CStrArg.null st
          = (none, some "tool is null/invalid"))
      ∧ (∀ st : ErrSlot, harmony_get_tool_namespace_config CStrArg.invalidUtf8 st
          = (none, some "tool is null/invalid"))
      ∧ (∀ (t : String) (st : ErrSlot), t ≠ "browser" → t ≠ "python" →
          harmony_get_tool_namespace_config (CStrArg.str t) st
            = (none, some "unknown tool namespace")))
    ∧ ((∀ (p : ParserCore) (t : Tok) (st : ErrSlot) (e : HError),
          p.process t = Except.error e →
          harmony_streamable_parser_process (some p) t st
            = (-1, set_last_error (errToString e) st, some p))
      ∧ (∀ (enc : HarmonyEncoding) (ts : List Tok) (roleArg : CStrArg)
          (st : ErrSlot) (e : HError),
          parseMessagesFromCompletionTokens ts (roleParsedLenient roleArg)
            = Except.error e →
          harmony_parse_messages_from_completion_tokens (some enc)
              (CArg.jsonOk ts) roleArg st
            = (none, set_last_error (errToString e) st))
      ∧ (∀ (enc : HarmonyEncoding) (ts : List Tok) (st : ErrSlot) (e : HError),
          decodeUtf8Model ts = Except.error e →
          harmony_decode_utf8 (some enc) (CArg.jsonOk ts) st
            = (none, set_last_error (errToString e) st)))
    ∧ ((∀ (e : String) (st : ErrSlot), e ≠ "" →
          ∃ m, set_last_error e st = some m ∧ m ≠ "")
      ∧ (∀ e : HError, errToString e ≠ ""))
    ∧ ((∀ (h : Option HarmonyEncoding) (cj : CArg Conversation) (e : String)
          (st : ErrSlot),
          harmony_render_conversation h cj (CArg.parseFail e) st
            = harmony_render_conversation h cj CArg.null st)
      ∧ (∀ (h : Option HarmonyEncoding) (cj : CArg Conversation) (e : String)
          (st : ErrSlot),
          harmony_render_conversation_for_training h cj (CArg.parseFail e) st
            = harmony_render_conversation_for_training h cj CArg.null st)
      ∧ (∀ (h : Option HarmonyEncoding) (cj : CArg Conversation) (rj : CStrArg)
          (e : String) (st : ErrSlot),
          harmony_render_conversation_for_completion h cj rj (CArg.parseFail e) st
            = harmony_render_conversation_for_completion h cj rj CArg.null st)
      ∧ (∀ (h : Option HarmonyEncoding) (mj : CArg Message) (e : String)
          (st : ErrSlot),
          harmony_render h mj (CArg.parseFail e) st
            = harmony_render h mj CArg.null st)
      ∧ (∀ (h : Option HarmonyEncoding) (tj : CArg (List Tok)) (st : ErrSlot)
          (s : String), roleFromString s = none →
          harmony_parse_messages_from_completion_tokens h tj (CStrArg.str s) st
            = harmony_parse_messages_from_completion_tokens h tj CStrArg.null st)
      ∧ (∀ (h : Option HarmonyEncoding) (st : ErrSlot) (s : String),
          roleFromString s = none →
          harmony_streamable_parser_new h (CStrArg.str s) st
            = harmony_streamable_parser_new h CStrArg.null st)
      ∧ (∀ (enc : HarmonyEncoding) (aj : CArg (List String)) (st : ErrSlot),
          harmony_encode (some enc) CStrArg.null aj st
            = harmony_encode (some enc) (CStrArg.str "") aj st)
      ∧ (∀ (enc : HarmonyEncoding) (aj : CArg (List String)) (st : ErrSlot),
          harmony_encode (some enc) CStrArg.invalidUtf8 aj st
            = harmony_encode (some enc) (CStrArg.str "") aj st)
      ∧ (∀ (h : Option HarmonyEncoding) (txt : CStrArg) (e : String)
          (st : ErrSlot),
          harmony_encode h txt (CArg.parseFail e) st
            = harmony_encode h txt CArg.null st))
    ∧ (∀ (p : ParserCore) (st : ErrSlot),
        harmony_streamable_parser_process_eos (some p) st
          = (0, st, some p.processEos)) :=
  ⟨⟨(by intros; rfl), (by intros; rfl), (by intros; rfl), (by intros; rfl), (by intros; rfl), (by intros; rfl), (by intros; rfl), (by intros; rfl), (by intros; rfl), (by intros; rfl), (by intros; rfl), (by intros; rfl), (by intros; rfl), (by intros; rfl), (by intros; rfl), (by intros; rfl), (by intros; rfl), (by intros; rfl), (by intros; rfl), (by intros; rfl), (by intros; rfl), (by intros; rfl), (by intros; rfl), (by intros; rfl), (by intros; rfl)⟩,
   ⟨(by intros; rfl), (by intros; rfl), encoding_new_unknown_name, (by intros; rfl), (by intros; rfl), (by intro enc cj cfgj st; cases cj <;> rfl), (by intro enc cj cfgj st; cases cj <;> rfl), (by intros; rfl), completion_unknown_role, (by intros; rfl), (by intros; rfl), (by intros; rfl), (by intros; rfl), (by intros; rfl), (by intros; rfl), (by intros; rfl), (by intros; rfl), (by intros; rfl), (by intros; rfl), (by intros; rfl), (by intros; rfl), (by intros; rfl), (by intros; rfl), (by intros; rfl), (by intros; rfl), (by intros; rfl), (by intros; rfl), (by intros; rfl), (by intros; rfl), tool_namespace_unknown⟩,
   ⟨parser_process_reports_error, parse_messages_core_error,
    decode_utf8_core_error⟩,
   ⟨set_last_error_stores_nonempty, errToString_nonempty⟩,
   ⟨config_fallback_conversation, config_fallback_training,
    config_fallback_completion, options_fallback_render,
    role_fallback_parse_messages, role_fallback_parser_new,
    (by intros; rfl), (by intros; rfl), allowed_fallback_encode⟩,
   (by intros; rfl)⟩

/-- Witness for C5 (amended), discharging every hypothesis-bearing conjunct
at concrete inputs. -/
theorem c5_error_propagation_amended_witness :
    harmony_encoding_new (CStrArg.str "bogus") none
      = (none, set_last_error ("invalid encoding name: " ++ "bogus") none)
    ∧ harmony_render_conversation_for_completion (some enc0) (CArg.jsonOk conv0)
        (CStrArg.str "narrator") CArg.null none
      = (none, set_last_error "unknown role" none)
    ∧ harmony_get_tool_namespace_config (CStrArg.str "shell") none
      = (none, some "unknown tool namespace")
    ∧ harmony_streamable_parser_process (some (initCore none)) Tok.contentSep none
      = (-1, set_last_error (errToString HError.unexpectedToken) none,
         some (initCore none))
    ∧ harmony_parse_messages_from_completion_tokens (some enc0)
        (CArg.jsonOk [Tok.contentSep]) CStrArg.null none
      = (none, set_last_error (errToString HError.unexpectedToken) none)
    ∧ harmony_decode_utf8 (some enc0) (CArg.jsonOk [Tok.text [195]]) none
      = (none, set_last_error (errToString HError.invalidUtf8Bytes) none)
    ∧ (∃ m, set_last_error "x" none = some m ∧ m ≠ "")
    ∧ harmony_parse_messages_from_completion_tokens (some enc0)
        (CArg.jsonOk [Tok.start]) (CStrArg.str "narrator") none
      = harmony_parse_messages_from_completion_tokens (some enc0)
        (CArg.jsonOk [Tok.start]) CStrArg.null none
    ∧ harmony_streamable_parser_new (some enc0) (CStrArg.str "narrator") none
      = harmony_streamable_parser_new (some enc0) CStrArg.null none := by
  obtain ⟨-, hII, hIII, hIV, hV, -⟩ := c5_error_propagation_amended
  obtain ⟨-, -, hname, -, -, -, -, -, hrole, -, -, -, -, -, -, -, -, -, -, -, -,
    -, -, -, -, -, -, -, -, htool⟩ := hII
  obtain ⟨hperr, hpcore, hdcore⟩ := hIII
  obtain ⟨hstore, -⟩ := hIV
  obtain ⟨-, -, -, -, hrfb1, hrfb2, -, -, -⟩ := hV
  exact ⟨hname "bogus" none (by decide),
    hrole enc0 conv0 CArg.null none "narrator" (by decide),
    htool "shell" none (by decide) (by decide),
    hperr (initCore none) Tok.contentSep none HError.unexpectedToken rfl,
    hpcore enc0 [Tok.contentSep] CStrArg.null none HError.unexpectedToken rfl,
    hdcore enc0 [Tok.text [195]] none HError.invalidUtf8Bytes rfl,
    hstore "x" none (by decide),
    hrfb1 (some enc0) (CArg.jsonOk [Tok.start]) none "narrator" (by decide),
    hrfb2 (some enc0) none "narrator" (by decide)⟩

/-! ## Claim C6 -/

/-- Claim C6: the three conversation-render operations are deterministic pure
functions of their inputs.  In the embedding every input is passed by value,
so rendering cannot mutate it; the only mutable state of the layer is the
thread-local error slot, and the conjuncts show (1-3) the token result of
each render operation is independent of that state — two invocations with
equal inputs return identical token sequences — and (4-6) a successful
render leaves the slot untouched. -/
theorem c6_render_deterministic :
    (∀ (h : Option HarmonyEncoding) (cj : CArg Conversation)
        (cfgj : CArg RenderConversationConfig) (st1 st2 : ErrSlot),
        (harmony_render_conversation h cj cfgj st1).1
          = (harmony_render_conversation h cj cfgj st2).1)
    ∧ (∀ (h : Option HarmonyEncoding) (cj : CArg Conversation)
        (cfgj : CArg RenderConversationConfig) (st1 st2 : ErrSlot),
        (harmony_render_conversation_for_training h cj cfgj st1).1
          = (harmony_render_conversation_for_training h cj cfgj st2).1)
    ∧ (∀ (h : Option HarmonyEncoding) (cj : CArg Conversation) (rj : CStrArg)
        (cfgj : CArg RenderConversationConfig) (st1 st2 : ErrSlot),
        (harmony_render_conversation_for_completion h cj rj cfgj st1).1
          = (harmony_render_conversation_for_completion h cj rj cfgj st2).1)
    ∧ (∀ (h : Option HarmonyEncoding) (cj : CArg Conversation)
        (cfgj : CArg RenderConversationConfig) (st : ErrSlot) (ts : List Tok),
        (harmony_render_conversation h cj cfgj st).1 = some ts →
        (harmony_render_conversation h cj cfgj st).2 = st)
    ∧ (∀ (h : Option HarmonyEncoding) (cj : CArg Conversation)
        (cfgj : CArg RenderConversationConfig) (st : ErrSlot) (ts : List Tok),
        (harmony_render_conversation_for_training h cj cfgj st).1 = some ts →
        (harmony_render_conversation_for_training h cj cfgj st).2 = st)
    ∧ (∀ (h : Option HarmonyEncoding) (cj : CArg Conversation) (rj : CStrArg)
        (cfgj : CArg RenderConversationConfig) (st : ErrSlot) (ts : List Tok),
        (harmony_render_conversation_for_completion h cj rj cfgj st).1 = some ts →
        (harmony_render_conversation_for_completion h cj rj cfgj st).2 = st) := by
  have hred : ∀ (enc : HarmonyEncoding) (conv : Conversation) (s : String)
      (cfgj : CArg RenderConversationConfig) (st : ErrSlot),
      harmony_render_conversation_for_completion (some enc) (CArg.jsonOk conv)
          (CStrArg.str s) cfgj st
        = (match roleFromString s with
           | none => (none, set_last_error "unknown role" st)
           | some role =>
             match render_conversation_for_completion_core conv role
                 (parse_render_config cfgj) with
             | Except.ok tokens => (some tokens, st)
             | Except.error e => (none, set_last_error (errToString e) st)) :=
    fun _ _ _ _ _ => rfl
  refine ⟨?_, ?_, ?_, ?_, ?_, ?_⟩
  · intro h cj cfgj st1 st2
    cases h with
    | none => rfl
    | some enc => cases cj <;> rfl
  · intro h cj cfgj st1 st2
    cases h with
    | none => rfl
    | some enc => cases cj <;> rfl
  · intro h cj rj cfgj st1 st2
    cases h with
    | none => rfl
    | some enc =>
      cases cj with
      | null => rfl
      | invalidUtf8 => rfl
      | parseFail e => cases rj <;> rfl
      | jsonOk conv =>
        cases rj with
        | null => rfl
        | invalidUtf8 => rfl
        | str s =>
          rw [hred enc conv s cfgj st1, hred enc conv s cfgj st2]
          cases roleFromString s with
          | none => rfl
          | some role => rfl
  · intro h cj cfgj st ts hts
    cases h with
    | none => simp [harmony_render_conversation] at hts
    | some enc =>
      cases cj with
      | null => simp [harmony_render_conversation, CArg.isNullOrInvalid] at hts
      | invalidUtf8 => simp [harmony_render_conversation, CArg.isNullOrInvalid] at hts
      | parseFail e =>
        simp [harmony_render_conversation, CArg.isNullOrInvalid, CArg.parse] at hts
      | jsonOk conv => rfl
  · intro h cj cfgj st ts hts
    cases h with
    | none => simp [harmony_render_conversation_for_training] at hts
    | some enc =>
      cases cj with
      | null =>
        simp [harmony_render_conversation_for_training, CArg.isNullOrInvalid] at hts
      | invalidUtf8 =>
        simp [harmony_render_conversation_for_training, CArg.isNullOrInvalid] at hts
      | parseFail e =>
        simp [harmony_render_conversation_for_training, CArg.isNullOrInvalid,
          CArg.parse] at hts
      | jsonOk conv => rfl
  · intro h cj rj cfgj st ts hts
    cases h with
    | none => simp [harmony_render_conversation_for_completion] at hts
    | some enc =>
      cases cj with
      | null =>
        simp [harmony_render_conversation_for_completion, CArg.isNullOrInvalid] at hts
      | invalidUtf8 =>
        simp [harmony_render_conversation_for_completion, CArg.isNullOrInvalid] at hts
      | parseFail e =>
        cases rj with
        | null =>
          simp [harmony_render_conversation_for_completion, CArg.isNullOrInvalid,
            CStrArg.isNullOrInvalid] at hts
        | invalidUtf8 =>
          simp [harmony_render_conversation_for_completion, CArg.isNullOrInvalid,
            CStrArg.isNullOrInvalid] at hts
        | str s =>
          simp [harmony_render_conversation_for_completion, CArg.isNullOrInvalid,
            CStrArg.isNullOrInvalid, CArg.parse] at hts
      | jsonOk conv =>
        cases rj with
        | null =>
          simp [harmony_render_conversation_for_completion, CArg.isNullOrInvalid,
            CStrArg.isNullOrInvalid] at hts
        | invalidUtf8 =>
          simp [harmony_render_conversation_for_completion, CArg.isNullOrInvalid,
            CStrArg.isNullOrInvalid] at hts
        | str s =>
          rw [hred enc conv s cfgj st] at hts ⊢
          cases hrs : roleFromString s with
          | none =>
            rw [hrs] at hts
            exact Option.noConfusion hts
          | some role =>
            rw [hrs] at hts
            rfl

/-- Witness for C6: a concrete successful render leaves the error slot
unchanged. -/
theorem c6_render_deterministic_witness :
    (harmony_render_conversation (some enc0) (CArg.jsonOk conv0) CArg.null none).2
      = none
    ∧ (harmony_render_conversation_for_training (some enc0) (CArg.jsonOk conv0)
        CArg.null (some "stale")).2 = some "stale"
    ∧ (harmony_render_conversation_for_completion (some enc0) (CArg.jsonOk conv0)
        (CStrArg.str "assistant") CArg.null none).2 = none :=
  ⟨c6_render_deterministic.2.2.2.1 (some enc0) (CArg.jsonOk conv0) CArg.null none
      (renderedConversation conv0 none) rfl,
   c6_render_deterministic.2.2.2.2.1 (some enc0) (CArg.jsonOk conv0) CArg.null
      (some "stale") (renderedTraining conv0 none) rfl,
   c6_render_deterministic.2.2.2.2.2 (some enc0) (CArg.jsonOk conv0)
      (CStrArg.str "assistant") CArg.null none
      (renderedCompletion conv0 Role.assistant none) rfl⟩

/-! ## Claim C7 -/

/-- Claim C7: every exported FFI function follows the null-on-error (or
-1-on-error) plus thread-local last-error protocol.  Group (1):
`harmony_get_last_error` returns exactly the stored message, leaving the slot
in place, and null when no error has been recorded.  Group (2): a stored
diagnostic is never empty (non-empty stored message for non-empty input, and
every core error renders a non-empty message).  Group (3):
`harmony_streamable_parser_process` returns -1 with the stored diagnostic on
a null handle or a process error (state unchanged), and 0 leaving the slot
alone on success.  Group (4): every null-handle failure of every exported
handle-receiving function stores its message and returns the sentinel.
Group (5): every argument-validation failure of every exported function
(null, non-UTF-8 or rejected JSON for conversation, message, tokens, name,
role and tool) stores its message and returns null.  Group (6): every
remaining core-error path reachable in the model (one-shot parse errors,
UTF-8 decode failures) stores its diagnostic and returns null.  Accessors
returning null for an absent value are not failures and store nothing. -/
theorem c7_last_error_protocol :
    ((∀ st : ErrSlot, harmony_get_last_error st = (st, st))
      ∧ harmony_get_last_error none = (none, none))
    ∧ ((∀ (e : String) (st : ErrSlot), e ≠ "" →
          ∃ m, set_last_error e st = some m ∧ m ≠ "")
      ∧ (∀ e : HError, errToString e ≠ ""))
    ∧ ((∀ (t : Tok) (st : ErrSlot),
          harmony_streamable_parser_process none t st
            = (-1, some "null handle", none))
      ∧ (∀ (p : ParserCore) (t : Tok) (st : ErrSlot) (e : HError),
          p.process t = Except.error e →
          harmony_streamable_parser_process (some p) t st
            = (-1, set_last_error (errToString e) st, some p))
      ∧ (∀ (p q : ParserCore) (t : Tok) (st : ErrSlot),
          p.process t = Except.ok q →
          harmony_streamable_parser_process (some p) t st = (0, st, some q)))
    ∧ ((∀ st : ErrSlot, harmony_encoding_name none st = (none, some "null handle"))
      ∧ (∀ (cj : CArg Conversation) (rj : CStrArg)
          (cfgj : CArg RenderConversationConfig) (st : ErrSlot),
          harmony_render_conversation_for_completion none cj rj cfgj st
            = (none, some "null handle"))
      ∧ (∀ (cj : CArg Conversation) (cfgj : CArg RenderConversationConfig)
          (st : ErrSlot),
          harmony_render_conversation none cj cfgj st = (none, some "null handle"))
      ∧ (∀ (cj : CArg Conversation) (cfgj : CArg RenderConversationConfig)
          (st : ErrSlot),
          harmony_render_conversation_for_training none cj cfgj st
            = (none, some "null handle"))
      ∧ (∀ (mj : CArg Message) (oj : CArg RenderOptions) (st : ErrSlot),
          harmony_render none mj oj st = (none, some "null handle"))
      ∧ (∀ (tj : CArg (List Tok)) (rj : CStrArg) (st : ErrSlot),
          harmony_parse_messages_from_completion_tokens none tj rj st
            = (none, some "null handle"))
      ∧ (∀ (tj : CArg (List Tok)) (st : ErrSlot),
          harmony_decode_utf8 none tj st = (none, some "null handle"))
      ∧ (∀ (tj : CArg (List Tok)) (st : ErrSlot),
          harmony_decode_bytes none tj st = (none, some "null handle"))
      ∧ (∀ (txt : CStrArg) (aj : CArg (List String)) (st : ErrSlot),
          harmony_encode none txt aj st = (none, some "null handle"))
      ∧ (∀ st : ErrSlot, harmony_special_tokens none st = (none, some "null handle"))
      ∧ (∀ (t : Tok) (st : ErrSlot),
          harmony_is_special_token none t st = (-1, some "null handle"))
      ∧ (∀ st : ErrSlot, harmony_stop_tokens none st = (none, some "null handle"))
      ∧ (∀ st : ErrSlot, harmony_stop_tokens_for_assistant_actions none st
          = (none, some "null handle"))
      ∧ (∀ (rj : CStrArg) (st : ErrSlot),
          harmony_streamable_parser_new none rj st
            = (none, some "null encoding handle"))
      ∧ (∀ (t : Tok) (st : ErrSlot),
          harmony_streamable_parser_process none t st
            = (-1, some "null handle", none))
      ∧ (∀ st : ErrSlot, harmony_streamable_parser_process_eos none st
          = (-1, some "null handle", none))
      ∧ (∀ st : ErrSlot, harmony_streamable_parser_current_content none st
          = (none, some "null handle"))
      ∧ (∀ st : ErrSlot, harmony_streamable_parser_current_role none st
          = (none, some "null handle"))
      ∧ (∀ st : ErrSlot, harmony_streamable_parser_current_content_type none st
          = (none, some "null handle"))
      ∧ (∀ st : ErrSlot, harmony_streamable_parser_last_content_delta none st
          = (none, some "null handle"))
      ∧ (∀ st : ErrSlot, harmony_streamable_parser_messages none st
          = (none, some "null handle"))
      ∧ (∀ st : ErrSlot, harmony_streamable_parser_tokens none st
          = (none, some "null handle"))
      ∧ (∀ st : ErrSlot, harmony_streamable_parser_state none st
          = (none, some "null handle"))
      ∧ (∀ st : ErrSlot, harmony_streamable_parser_current_recipient none st
          = (none, some "null handle"))
      ∧ (∀ st : ErrSlot, harmony_streamable_parser_current_channel none st
          = (none, some "null handle")))
    ∧ ((∀ st : ErrSlot, harmony_encoding_new CStrArg.null st
          = (none, some "name is null or invalid"))
      ∧ (∀ st : ErrSlot, harmony_encoding_new CStrArg.invalidUtf8 st
          = (none, some "name is null or invalid"))
      ∧ (∀ (s : String) (st : ErrSlot), s ≠ "HarmonyGptOss" →
          harmony_encoding_new (CStrArg.str s) st
            = (none, set_last_error ("invalid encoding name: " ++ s) st))
      ∧ (∀ (enc : HarmonyEncoding) (rj : CStrArg)
          (cfgj : CArg RenderConversationConfig) (st : ErrSlot),
          harmony_render_conversation_for_completion (some enc) CArg.null rj cfgj st
            = (none, some "conversation_json or next_turn_role is null/invalid"))
      ∧ (∀ (enc : HarmonyEncoding) (rj : CStrArg)
          (cfgj : CArg RenderConversationConfig) (st : ErrSlot),
          harmony_render_conversation_for_completion (some enc) CArg.invalidUtf8 rj
              cfgj st
            = (none, some "conversation_json or next_turn_role is null/invalid"))
      ∧ (∀ (enc : HarmonyEncoding) (cj : CArg Conversation)
          (cfgj : CArg RenderConversationConfig) (st : ErrSlot),
          harmony_render_conversation_for_completion (some enc) cj CStrArg.null
              cfgj st
            = (none, some "conversation_json or next_turn_role is null/invalid"))
      ∧ (∀ (enc : HarmonyEncoding) (cj : CArg Conversation)
          (cfgj : CArg RenderConversationConfig) (st : ErrSlot),
          harmony_render_conversation_for_completion (some enc) cj
              CStrArg.invalidUtf8 cfgj st
            = (none, some "conversation_json or next_turn_role is null/invalid"))
      ∧ (∀ (enc : HarmonyEncoding) (e s : String)
          (cfgj : CArg RenderConversationConfig) (st : ErrSlot),
          harmony_render_conversation_for_completion (some enc) (CArg.parseFail e)
              (CStrArg.str s) cfgj st
            = (none, set_last_error ("invalid conversation JSON: " ++ e) st))
      ∧ (∀ (enc : HarmonyEncoding) (conv : Conversation)
          (cfgj : CArg RenderConversationConfig) (st : ErrSlot) (s : String),
          roleFromString s = none →
          harmony_render_conversation_for_completion (some enc) (CArg.jsonOk conv)
              (CStrArg.str s) cfgj st
            = (none, set_last_error "unknown role" st))
      ∧ (∀ (enc : HarmonyEncoding) (cfgj : CArg RenderConversationConfig)
          (st : ErrSlot),
          harmony_render_conversation (some enc) CArg.null cfgj st
            = (none, some "conversation_json is null/invalid"))
      ∧ (∀ (enc : HarmonyEncoding) (cfgj : CArg RenderConversationConfig)
          (st : ErrSlot),
          harmony_render_conversation (some enc) CArg.invalidUtf8 cfgj st
            = (none, some "conversation_json is null/invalid"))
      ∧ (∀ (enc : HarmonyEncoding) (e : String)
          (cfgj : CArg RenderConversationConfig) (st : ErrSlot),
          harmony_render_conversation (some enc) (CArg.parseFail e) cfgj st
            = (none, set_last_error ("invalid conversation JSON: " ++ e) st))
      ∧ (∀ (enc : HarmonyEncoding) (cfgj : CArg RenderConversationConfig)
          (st : ErrSlot),
          harmony_render_conversation_for_training (some enc) CArg.null cfgj st
            = (none, some "conversation_json is null/invalid"))
      ∧ (∀ (enc : HarmonyEncoding) (cfgj : CArg RenderConversationConfig)
          (st : ErrSlot),
          harmony_render_conversation_for_training (some enc) CArg.invalidUtf8
              cfgj st
            = (none, some "conversation_json is null/invalid"))
      ∧ (∀ (enc : HarmonyEncoding) (e : String)
          (cfgj : CArg RenderConversationConfig) (st : ErrSlot),
          harmony_render_conversation_for_training (some enc) (CArg.parseFail e)
              cfgj st
            = (none, set_last_error ("invalid conversation JSON: " ++ e) st))
      ∧ (∀ (enc : HarmonyEncoding) (oj : CArg RenderOptions) (st : ErrSlot),
          harmony_render (some enc) CArg.null oj st
            = (none, some "message_json is null/invalid"))
      ∧ (∀ (enc : HarmonyEncoding) (oj : CArg RenderOptions) (st : ErrSlot),
          harmony_render (some enc) CArg.invalidUtf8 oj st
            = (none, some "message_json is null/invalid"))
      ∧ (∀ (enc : HarmonyEncoding) (e : String) (oj : CArg RenderOptions)
          (st : ErrSlot),
          harmony_render (some enc) (CArg.parseFail e) oj st
            = (none, set_last_error ("invalid message JSON: " ++ e) st))
      ∧ (∀ (enc : HarmonyEncoding) (rj : CStrArg) (st : ErrSlot),
          harmony_parse_messages_from_completion_tokens (some enc) CArg.null rj st
            = (none, some "tokens_json is null/invalid"))
      ∧ (∀ (enc : HarmonyEncoding) (rj : CStrArg) (st : ErrSlot),
          harmony_parse_messages_from_completion_tokens (some enc)
              CArg.invalidUtf8 rj st
            = (none, some "tokens_json is null/invalid"))
      ∧ (∀ (enc : HarmonyEncoding) (e : String) (rj : CStrArg) (st : ErrSlot),
          harmony_parse_messages_from_completion_tokens (some enc)
              (CArg.parseFail e) rj st
            = (none, set_last_error ("invalid tokens JSON: " ++ e) st))
      ∧ (∀ (enc : HarmonyEncoding) (st : ErrSlot),
          harmony_decode_utf8 (some enc) CArg.null st
            = (none, some "tokens_json is null/invalid"))
      ∧ (∀ (enc : HarmonyEncoding) (st : ErrSlot),
          harmony_decode_utf8 (some enc) CArg.invalidUtf8 st
            = (none, some "tokens_json is null/invalid"))
      ∧ (∀ (enc : HarmonyEncoding) (e : String) (st : ErrSlot),
          harmony_decode_utf8 (some enc) (CArg.parseFail e) st
            = (none, set_last_error ("invalid tokens JSON: " ++ e) st))
      ∧ (∀ (enc : HarmonyEncoding) (st : ErrSlot),
          harmony_decode_bytes (some enc) CArg.null st
            = (none, some "tokens_json is null/invalid"))
      ∧ (∀ (enc : HarmonyEncoding) (st : ErrSlot),
          harmony_decode_bytes (some enc) CArg.invalidUtf8 st
            = (none, some "tokens_json is null/invalid"))
      ∧ (∀ (enc : HarmonyEncoding) (e : String) (st : ErrSlot),
          harmony_decode_bytes (some enc) (CArg.parseFail e) st
            = (none, set_last_error ("invalid tokens JSON: " ++ e) st))
      ∧ (∀ st : ErrSlot, harmony_get_tool_namespace_config CStrArg.null st
          = (none, some "tool is null/invalid"))
      ∧ (∀ st : ErrSlot, harmony_get_tool_namespace_config CStrArg.invalidUtf8 st
          = (none, some "tool is null/invalid"))
      ∧ (∀ (t : String) (st : ErrSlot), t ≠ "browser" → t ≠ "python" →
          harmony_get_tool_namespace_config (CStrArg.str t) st
            = (none, some "unknown tool namespace")))
    ∧ ((∀ (enc : HarmonyEncoding) (ts : List Tok) (roleArg : CStrArg)
          (st : ErrSlot) (e : HError),
          parseMessagesFromCompletionTokens ts (roleParsedLenient roleArg)
            = Except.error e →
          harmony_parse_messages_from_completion_tokens (some enc)
              (CArg.jsonOk ts) roleArg st
            = (none, set_last_error (errToString e) st))
      ∧ (∀ (enc : HarmonyEncoding) (ts : List Tok) (st : ErrSlot) (e : HError),
          decodeUtf8Model ts = Except.error e →
          harmony_decode_utf8 (some enc) (CArg.jsonOk ts) st
            = (none, set_last_error (errToString e) st))) :=
  ⟨⟨fun st => rfl, rfl⟩,
   ⟨set_last_error_stores_nonempty, errToString_nonempty⟩,
   ⟨(by intros; rfl), parser_process_reports_error,
    (by intro p q t st hp; rw [harmony_streamable_parser_process, hp])⟩,
   ⟨(by intros; rfl), (by intros; rfl), (by intros; rfl), (by intros; rfl), (by intros; rfl), (by intros; rfl), (by intros; rfl), (by intros; rfl), (by intros; rfl), (by intros; rfl), (by intros; rfl), (by intros; rfl), (by intros; rfl), (by intros; rfl), (by intros; rfl), (by intros; rfl), (by intros; rfl), (by intros; rfl), (by intros; rfl), (by intros; rfl), (by intros; rfl), (by intros; rfl), (by intros; rfl), (by intros; rfl), (by intros; rfl)⟩,
   ⟨(by intros; rfl), (by intros; rfl), encoding_new_unknown_name, (by intros; rfl), (by intros; rfl), (by intro enc cj cfgj st; cases cj <;> rfl), (by intro enc cj cfgj st; cases cj <;> rfl), (by intros; rfl), completion_unknown_role, (by intros; rfl), (by intros; rfl), (by intros; rfl), (by intros; rfl), (by intros; rfl), (by intros; rfl), (by intros; rfl), (by intros; rfl), (by intros; rfl), (by intros; rfl), (by intros; rfl), (by intros; rfl), (by intros; rfl), (by intros; rfl), (by intros; rfl), (by intros; rfl), (by intros; rfl), (by intros; rfl), (by intros; rfl), (by intros; rfl), tool_namespace_unknown⟩,
   ⟨parse_messages_core_error, decode_utf8_core_error⟩⟩

/-- Witness for C7, discharging every hypothesis-bearing conjunct at
concrete inputs. -/
theorem c7_last_error_protocol_witness :
    (∃ m, set_last_error "unknown role" none = some m ∧ m ≠ "")
    ∧ harmony_streamable_parser_process (some (initCore none)) Tok.contentSep none
      = (-1, set_last_error (errToString HError.unexpectedToken) none,
         some (initCore none))
    ∧ harmony_streamable_parser_process (some (initCore none)) Tok.start none
      = (0, none, some (ParserCore.mk PState.expectRole [] [Tok.start] none))
    ∧ harmony_encoding_new (CStrArg.str "bogus") none
      = (none, set_last_error ("invalid encoding name: " ++ "bogus") none)
    ∧ harmony_render_conversation_for_completion (some enc0) (CArg.jsonOk conv0)
        (CStrArg.str "narrator") CArg.null none
      = (none, set_last_error "unknown role" none)
    ∧ harmony_get_tool_namespace_config (CStrArg.str "shell") none
      = (none, some "unknown tool namespace")
    ∧ harmony_parse_messages_from_completion_tokens (some enc0)
        (CArg.jsonOk [Tok.contentSep]) CStrArg.null none
      = (none, set_last_error (errToString HError.unexpectedToken) none)
    ∧ harmony_decode_utf8 (some enc0) (CArg.jsonOk [Tok.text [195]]) none
      = (none, set_last_error (errToString HError.invalidUtf8Bytes) none) := by
  obtain ⟨-, hdiag, hproc, -, hargs, hcore⟩ := c7_last_error_protocol
  obtain ⟨hne, -⟩ := hdiag
  obtain ⟨-, herr, hok⟩ := hproc
  obtain ⟨-, -, hname, -, -, -, -, -, hrole, -, -, -, -, -, -, -, -, -, -, -, -,
    -, -, -, -, -, -, -, -, htool⟩ := hargs
  exact ⟨hne "unknown role" none (by decide),
    herr (initCore none) Tok.contentSep none HError.unexpectedToken rfl,
    hok (initCore none) (ParserCore.mk PState.expectRole [] [Tok.start] none)
      Tok.start none rfl,
    hname "bogus" none (by decide),
    hrole enc0 conv0 CArg.null none "narrator" (by decide),
    htool "shell" none (by decide) (by decide),
    hcore.1 enc0 [Tok.contentSep] CStrArg.null none HError.unexpectedToken rfl,
    hcore.2 enc0 [Tok.text [195]] none HError.invalidUtf8Bytes rfl⟩

/-! ## Claim C8 -/

/-- Claim C8 as frozen is false on one function: with a null encoding handle
`harmony_streamable_parser_new` does return null, but the message it stores
is "null encoding handle", not the "null handle" the claim quotes. -/
theorem c8_null_handle_counterexample :
    harmony_streamable_parser_new none CStrArg.null none
      = (none, some "null encoding handle")
    ∧ ("null encoding handle" : String) ≠ "null handle" :=
  ⟨rfl, by decide⟩

/-- Claim C8 (amended): every exported function that receives a handle checks
it for null before any dereference: pointer-returning functions return null
and int-returning functions return -1 after storing "null handle"
("null encoding handle" in `harmony_streamable_parser_new`), and the free
functions are no-ops on null, so no exported function dereferences a null
pointer. -/
theorem c8_null_handle_checks_amended :
    (∀ st : ErrSlot, harmony_encoding_free none st = st)
    ∧ (∀ st : ErrSlot, harmony_encoding_name none st = (none, some "null handle"))
    ∧ (∀ (cj : CArg Conversation) (rj : CStrArg)
        (cfgj : CArg RenderConversationConfig) (st : ErrSlot),
        harmony_render_conversation_for_completion none cj rj cfgj st
          = (none, some "null handle"))
    ∧ (∀ (cj : CArg Conversation) (cfgj : CArg RenderConversationConfig)
        (st : ErrSlot),
        harmony_render_conversation none cj cfgj st = (none, some "null handle"))
    ∧ (∀ (cj : CArg Conversation) (cfgj : CArg RenderConversationConfig)
        (st : ErrSlot),
        harmony_render_conversation_for_training none cj cfgj st
          = (none, some "null handle"))
    ∧ (∀ (mj : CArg Message) (oj : CArg RenderOptions) (st : ErrSlot),
        harmony_render none mj oj st = (none, some "null handle"))
    ∧ (∀ (tj : CArg (List Tok)) (rj : CStrArg) (st : ErrSlot),
        harmony_parse_messages_from_completion_tokens none tj rj st
          = (none, some "null handle"))
    ∧ (∀ (tj : CArg (List Tok)) (st : ErrSlot),
        harmony_decode_utf8 none tj st = (none, some "null handle"))
    ∧ (∀ (tj : CArg (List Tok)) (st : ErrSlot),
        harmony_decode_bytes none tj st = (none, some "null handle"))
    ∧ (∀ (txt : CStrArg) (aj : CArg (List String)) (st : ErrSlot),
        harmony_encode none txt aj st = (none, some "null handle"))
    ∧ (∀ st : ErrSlot, harmony_special_tokens none st = (none, some "null handle"))
    ∧ (∀ (t : Tok) (st : ErrSlot),
        harmony_is_special_token none t st = (-1, some "null handle"))
    ∧ (∀ st : ErrSlot, harmony_stop_tokens none st = (none, some "null handle"))
    ∧ (∀ st : ErrSlot, harmony_stop_tokens_for_assistant_actions none st
        = (none, some "null handle"))
    ∧ (∀ (rj : CStrArg) (st : ErrSlot),
        harmony_streamable_parser_new none rj st
          = (none, some "null encoding handle"))
    ∧ (∀ st : ErrSlot, harmony_streamable_parser_free none st = st)
    ∧ (∀ (t : Tok) (st : ErrSlot),
        harmony_streamable_parser_process none t st
          = (-1, some "null handle", none))
    ∧ (∀ st : ErrSlot, harmony_streamable_parser_process_eos none st
        = (-1, some "null handle", none))
    ∧ (∀ st : ErrSlot, harmony_streamable_parser_current_content none st
        = (none, some "null handle"))
    ∧ (∀ st : ErrSlot, harmony_streamable_parser_current_role none st
        = (none, some "null handle"))
    ∧ (∀ st : ErrSlot, harmony_streamable_parser_current_content_type none st
        = (none, some "null handle"))
    ∧ (∀ st : ErrSlot, harmony_streamable_parser_last_content_delta none st
        = (none, some "null handle"))
    ∧ (∀ st : ErrSlot, harmony_streamable_parser_messages none st
        = (none, some "null handle"))
    ∧ (∀ st : ErrSlot, harmony_streamable_parser_tokens none st
        = (none, some "null handle"))
    ∧ (∀ st : ErrSlot, harmony_streamable_parser_state none st
        = (none, some "null handle"))
    ∧ (∀ st : ErrSlot, harmony_streamable_parser_current_recipient none st
        = (none, some "null handle"))
    ∧ (∀ st : ErrSlot, harmony_streamable_parser_current_channel none st
        = (none, some "null handle"))
    ∧ (∀ (s : Option String) (st : ErrSlot), harmony_free_string s st = st) :=
  ⟨fun _ => rfl, fun _ => rfl, fun _ _ _ _ => rfl, fun _ _ _ => rfl,
   fun _ _ _ => rfl, fun _ _ _ => rfl, fun _ _ _ => rfl, fun _ _ => rfl,
   fun _ _ => rfl, fun _ _ _ => rfl, fun _ => rfl, fun _ _ => rfl, fun _ => rfl,
   fun _ => rfl, fun _ _ => rfl, fun _ => rfl, fun _ _ => rfl, fun _ => rfl,
   fun _ => rfl, fun _ => rfl, fun _ => rfl, fun _ => rfl, fun _ => rfl,
   fun _ => rfl, fun _ => rfl, fun _ => rfl, fun _ => rfl, fun _ _ => rfl⟩

/-! ## Claim C9 -/

/-- Claim C9: in each of the three conversation-render functions a non-null
`config_json` that fails to deserialize is silently discarded: the call is
indistinguishable from passing NULL (conjuncts 1-3, full input-output
equality including the error slot), and with a valid handle and conversation
it succeeds with the default configuration, reporting no error (conjuncts
4-6). -/
theorem c9_config_parse_failure_ignored :
    (∀ (h : Option HarmonyEncoding) (cj : CArg Conversation) (e : String)
        (st : ErrSlot),
        harmony_render_conversation h cj (CArg.parseFail e) st
          = harmony_render_conversation h cj CArg.null st)
    ∧ (∀ (h : Option HarmonyEncoding) (cj : CArg Conversation) (e : String)
        (st : ErrSlot),
        harmony_render_conversation_for_training h cj (CArg.parseFail e) st
          = harmony_render_conversation_for_training h cj CArg.null st)
    ∧ (∀ (h : Option HarmonyEncoding) (cj : CArg Conversation) (rj : CStrArg)
        (e : String) (st : ErrSlot),
        harmony_render_conversation_for_completion h cj rj (CArg.parseFail e) st
          = harmony_render_conversation_for_completion h cj rj CArg.null st)
    ∧ (∀ (enc : HarmonyEncoding) (conv : Conversation) (e : String) (st : ErrSlot),
        harmony_render_conversation (some enc) (CArg.jsonOk conv)
            (CArg.parseFail e) st
          = (some (renderedConversation conv none), st))
    ∧ (∀ (enc : HarmonyEncoding) (conv : Conversation) (e : String) (st : ErrSlot),
        harmony_render_conversation_for_training (some enc) (CArg.jsonOk conv)
            (CArg.parseFail e) st
          = (some (renderedTraining conv none), st))
    ∧ (∀ (enc : HarmonyEncoding) (conv : Conversation) (e : String) (st : ErrSlot),
        harmony_render_conversation_for_completion (some enc) (CArg.jsonOk conv)
            (CStrArg.str "assistant") (CArg.parseFail e) st
          = (some (renderedCompletion conv Role.assistant none), st)) := by
  refine ⟨?_, ?_, ?_, fun enc conv e st => rfl, fun enc conv e st => rfl,
    fun enc conv e st => rfl⟩
  · intro h cj e st
    cases h with
    | none => rfl
    | some enc => cases cj <;> rfl
  · intro h cj e st
    cases h with
    | none => rfl
    | some enc => cases cj <;> rfl
  · intro h cj rj e st
    cases h with
    | none => rfl
    | some enc =>
      cases cj with
      | null => rfl
      | invalidUtf8 => rfl
      | parseFail e2 => cases rj <;> rfl
      | jsonOk conv =>
        cases rj with
        | null => rfl
        | invalidUtf8 => rfl
        | str s =>
          have hred : ∀ cfgj : CArg RenderConversationConfig,
              harmony_render_conversation_for_completion (some enc)
                  (CArg.jsonOk conv) (CStrArg.str s) cfgj st
                = (match roleFromString s with
                   | none => (none, set_last_error "unknown role" st)
                   | some role =>
                     match render_conversation_for_completion_core conv role
                         (parse_render_config cfgj) with
                     | Except.ok tokens => (some tokens, st)
                     | Except.error e => (none, set_last_error (errToString e) st)) :=
            fun _ => rfl
          rw [hred (CArg.parseFail e), hred CArg.null]
          rfl

/-! ## Claim C10 -/

/-- Claim C10: `harmony_parse_messages_from_completion_tokens` and
`harmony_streamable_parser_new` silently treat a role string that names no
known Role exactly like a NULL role pointer (conjuncts 1-2, full input-output
equality, so the call proceeds without error), while
`harmony_render_conversation_for_completion` rejects the same string with
the "unknown role" error (conjunct 3). -/
theorem c10_unknown_role_lenient (s : String) (hs : roleFromString s = none) :
    (∀ (h : Option HarmonyEncoding) (tj : CArg (List Tok)) (st : ErrSlot),
        harmony_parse_messages_from_completion_tokens h tj (CStrArg.str s) st
          = harmony_parse_messages_from_completion_tokens h tj CStrArg.null st)
    ∧ (∀ (h : Option HarmonyEncoding) (st : ErrSlot),
        harmony_streamable_parser_new h (CStrArg.str s) st
          = harmony_streamable_parser_new h CStrArg.null st)
    ∧ (∀ (enc : HarmonyEncoding) (conv : Conversation)
        (cfgj : CArg RenderConversationConfig) (st : ErrSlot),
        harmony_render_conversation_for_completion (some enc) (CArg.jsonOk conv)
            (CStrArg.str s) cfgj st
          = (none, some "unknown role")) := by
  refine ⟨?_, ?_, ?_⟩
  · intro h tj st
    cases h with
    | none => rfl
    | some enc =>
      cases tj with
      | null => rfl
      | invalidUtf8 => rfl
      | parseFail e => rfl
      | jsonOk ts =>
        simp only [harmony_parse_messages_from_completion_tokens,
          roleParsedLenient, hs]
  · intro h st
    cases h with
    | none => rfl
    | some enc =>
      simp only [harmony_streamable_parser_new, roleParsedLenient, hs]
  · intro enc conv cfgj st
    have hred : harmony_render_conversation_for_completion (some enc)
        (CArg.jsonOk conv) (CStrArg.str s) cfgj st
        = (match roleFromString s with
           | none => (none, set_last_error "unknown role" st)
           | some role =>
             match render_conversation_for_completion_core conv role
                 (parse_render_config cfgj) with
             | Except.ok tokens => (some tokens, st)
             | Except.error e => (none, set_last_error (errToString e) st)) := rfl
    rw [hred, hs]
    rfl

/-- Witness for C10 with the unknown role string "narrator". -/
theorem c10_unknown_role_lenient_witness :
    harmony_parse_messages_from_completion_tokens (some enc0)
        (CArg.jsonOk [Tok.start]) (CStrArg.str "narrator") none
      = harmony_parse_messages_from_completion_tokens (some enc0)
        (CArg.jsonOk [Tok.start]) CStrArg.null none
    ∧ harmony_streamable_parser_new (some enc0) (CStrArg.str "narrator") none
      = harmony_streamable_parser_new (some enc0) CStrArg.null none
    ∧ harmony_render_conversation_for_completion (some enc0) (CArg.jsonOk conv0)
        (CStrArg.str "narrator") CArg.null none
      = (none, some "unknown role") := by
  have h := c10_unknown_role_lenient "narrator" (by decide)
  exact ⟨h.1 (some enc0) (CArg.jsonOk [Tok.start]) none,
    h.2.1 (some enc0) none,
    h.2.2 enc0 conv0 CArg.null none⟩

end Harmony
